import Mathlib

/-!
BrainSAIT RCM validation survey: scoring client and submission worker

A shallow embedding of

* `public/assets/app.js` (the v2 survey client: scoring, qualification ladder,
  recommendations, API payload), and
* `src/worker.js` (the Cloudflare worker: schema validation, the
  `/api/submit` pipeline and the `/api/analytics` cache).

Modelling conventions.

* JavaScript numbers are integers (`Int`); a sum or a difference is rounded to the
  IEEE double the program holds. Fractions, `Infinity` and magnitudes from `2 ^ 1024`
  on are outside the model.
* `undefined` is `Option.none`; the values the client computes with are a `JsVal`
  (number, `NaN`, string, built-in function, `Object.prototype`).
* A property access on a scoring table finds the own properties of the object
  literal and the members inherited from `Object.prototype`.
* DOM rendering (progress bar, badges, alerts) is not modelled; only the data the
  functions read from and write to the closure variables `current`, `score`,
  `answers` and `aiRecommendations`.
-/

set_option autoImplicit false

namespace RcmValidation

namespace App

/-! ## JavaScript values and arithmetic -/

/-- White space and line terminators removed by `String.prototype.trim`. -/
def isJsWhiteSpace (c : Char) : Bool :=
  c.val = 0x09 || c.val = 0x0A || c.val = 0x0B || c.val = 0x0C || c.val = 0x0D ||
  c.val = 0x20 || c.val = 0xA0 || c.val = 0x1680 ||
  (0x2000 ≤ c.val && c.val ≤ 0x200A) ||
  c.val = 0x2028 || c.val = 0x2029 || c.val = 0x202F || c.val = 0x205F ||
  c.val = 0x3000 || c.val = 0xFEFF

/-- The method `String.prototype.trim`. -/
def jsTrim (s : String) : String :=
  ⟨((s.data.dropWhile isJsWhiteSpace).reverse.dropWhile isJsWhiteSpace).reverse⟩

/-- The values the client computes with: an integer number, `NaN`, a string, a
built-in function (named by its `name`), and the object `Object.prototype`.
`undefined` is `Option.none`. -/
inductive JsVal where
  | num (n : Int)
  | nan
  | str (s : String)
  | fn (name : String)
  | objectPrototype
  deriving DecidableEq, Repr

/-- The number of low bits a magnitude has beyond the 53 bits of the significand of
a double; `fuel` bounds the search. -/
def excessBits : Nat → Nat → Nat
  | 0, _ => 0
  | fuel + 1, m => if m < 2 ^ 53 then 0 else excessBits fuel (m / 2) + 1

/-- The integer a double holds in place of the natural number `m`: `m` itself below
`2 ^ 53`, else the nearest multiple of the spacing, ties to the even significand.
Magnitudes from `2 ^ 1024` on (which a double turns into `Infinity`) are outside the
model. -/
def roundNat (m : Nat) : Nat :=
  let e := excessBits 971 m
  if e = 0 then m
  else
    let q := m / 2 ^ e
    let r := m % 2 ^ e
    let half := 2 ^ (e - 1)
    if r > half ∨ (r = half ∧ q % 2 = 1) then (q + 1) * 2 ^ e else q * 2 ^ e

/-- The result of an integer-valued operation as the IEEE double the program holds
(round to nearest, ties to even). -/
def roundDouble (x : Int) : Int :=
  if 0 ≤ x then (roundNat x.natAbs : Int) else -(roundNat x.natAbs : Int)

/-- The value of a list of decimal digits. -/
def digitsValue (digits : List Char) : Nat :=
  digits.foldl (fun acc c => 10 * acc + (c.toNat - 48)) 0

/-- The value of an unsigned decimal integer literal, `none` for anything else. -/
def unsignedLiteral (digits : List Char) : Option Int :=
  if digits ≠ [] ∧ digits.all Char.isDigit = true then
    some (roundDouble (digitsValue digits))
  else none

/-- The conversion of a string to a number (`Number(s)`, and the `ToNumber` of an
arithmetic operand): the trimmed string, empty, gives 0; a decimal integer literal
with an optional sign gives its value; any other string gives `NaN` (`none`). Strings
that denote a fraction, an exponent form, a hexadecimal, octal or binary literal or
`Infinity` have a non-integer or special value and are outside the integer model. -/
def stringToNumber (s : String) : Option Int :=
  match (jsTrim s).data with
  | [] => some 0
  | '-' :: digits => (unsignedLiteral digits).map (fun n => -n)
  | '+' :: digits => unsignedLiteral digits
  | digits => unsignedLiteral digits

/-- The text `Function.prototype.toString` gives for a built-in function. -/
def nativeFunctionText (name : String) : String :=
  "function " ++ name ++ "() \x7b [native code] \x7d"

/-- The operation `ToPrimitive`: a function becomes its source text, the object
`Object.prototype` the string `[object Object]`; a primitive is left as it is. -/
def JsVal.toPrimitive : JsVal → JsVal
  | .fn name => .str (nativeFunctionText name)
  | .objectPrototype => .str "[object Object]"
  | v => v

/-- The operation `ToNumber`; `none` stands for `NaN`. -/
def JsVal.toNumber (v : JsVal) : Option Int :=
  match v.toPrimitive with
  | .num n => some n
  | .str s => stringToNumber s
  | _ => none

/-- The operation `ToString` (an integer below `10 ^ 21` in magnitude prints as its
decimal digits). -/
def JsVal.toText (v : JsVal) : String :=
  match v.toPrimitive with
  | .num n => toString n
  | .str s => s
  | _ => "NaN"

/-- Truthiness of a value. -/
def JsVal.truthy : JsVal → Bool
  | .num n => n != 0
  | .nan => false
  | .str s => s != ""
  | .fn _ => true
  | .objectPrototype => true

/-- Truthiness of a value that may be `undefined`. -/
def truthy : Option JsVal → Bool
  | some v => v.truthy
  | none => false

/-- The operator `+` (and `+=`): concatenation when either operand is a string after
`ToPrimitive`, else the sum of the numbers. -/
def jsAdd (a b : JsVal) : JsVal :=
  match a.toPrimitive, b.toPrimitive with
  | .str s, pb => .str (s ++ pb.toText)
  | pa, .str t => .str (pa.toText ++ t)
  | .num x, .num y => .num (roundDouble (x + y))
  | _, _ => .nan

/-- The operator `-` (and `-=`): the difference of the operands converted to
numbers. -/
def jsSub (a b : JsVal) : JsVal :=
  match a.toNumber, b.toNumber with
  | some x, some y => .num (roundDouble (x - y))
  | _, _ => .nan

/-- The comparison `v >= k` with a number literal `k`: false when `v` converts to
`NaN`. -/
def jsGe (v : JsVal) (k : Int) : Bool :=
  match v.toNumber with
  | some x => decide (k ≤ x)
  | none => false

/-- The members every object literal inherits from `Object.prototype`, by property
name: eleven built-in functions and the accessor `__proto__`, which yields
`Object.prototype` itself. -/
def objectPrototypeMember : String → Option JsVal
  | "constructor" => some (.fn "Object")
  | "hasOwnProperty" => some (.fn "hasOwnProperty")
  | "isPrototypeOf" => some (.fn "isPrototypeOf")
  | "propertyIsEnumerable" => some (.fn "propertyIsEnumerable")
  | "toLocaleString" => some (.fn "toLocaleString")
  | "toString" => some (.fn "toString")
  | "valueOf" => some (.fn "valueOf")
  | "__defineGetter__" => some (.fn "__defineGetter__")
  | "__defineSetter__" => some (.fn "__defineSetter__")
  | "__lookupGetter__" => some (.fn "__lookupGetter__")
  | "__lookupSetter__" => some (.fn "__lookupSetter__")
  | "__proto__" => some .objectPrototype
  | _ => none

/-! ## Client state -/

/-- The constant `totalQuestions`. -/
def totalQuestions : Nat := 6

/-- The data `selectOption` reads from a clicked option button: `dataset.qualify`,
`dataset.value`, the text of its `.option-title` child and `dataset.sar`, each
attribute as the string the page gives it, or absent. -/
structure Btn where
  qualify : Option String
  value : Option String
  title : String
  sar : Option String
  deriving DecidableEq, Repr

/-- The record `{ value, qualify, text, sar, aiScore }` stored in `answers.qN`. -/
structure Answer where
  value : Option String
  qualify : Option String
  text : String
  sar : Option JsVal
  aiScore : JsVal
  deriving DecidableEq, Repr

/-- The record stored in `answers.contact` by `next`. -/
structure Contact where
  name : String
  email : String
  organization : String
  phone : String
  location : String
  jobTitle : String
  deriving DecidableEq, Repr

/-- The closure variables of the client: `current`, `score`, `answers`
(`slots n` is `answers["q" + n]`, `contact` is `answers.contact`) and
`aiRecommendations`. -/
structure State where
  current : Nat
  score : JsVal
  slots : Nat → Option Answer
  contact : Option Contact
  aiRecommendations : List String

/-- The state right after the script is loaded:
`current = 1`, `score = 0`, `answers = {}`, `aiRecommendations = []`. -/
def State.initial : State :=
  { current := 1, score := .num 0, slots := fun _ => none, contact := none,
    aiRecommendations := [] }

/-! ## The scoring matrix -/

/-- The property access `aiScoringMatrix.role[key]`: the own properties of the
object literal, then the members inherited from `Object.prototype`. -/
def aiScoringMatrix_role : String → Option JsVal
  | "rcm-director" => some (.num 5)
  | "practice-admin" => some (.num 5)
  | "finance-controller" => some (.num 4)
  | "billing-manager" => some (.num 4)
  | "it-manager" => some (.num 3)
  | "clinical-supervisor" => some (.num 3)
  | "quality-manager" => some (.num 3)
  | "other-healthcare" => some (.num 1)
  | key => objectPrototypeMember key

/-- The property access `aiScoringMatrix.organizationSize[key]`: own properties,
then the members inherited from `Object.prototype`. -/
def aiScoringMatrix_organizationSize : String → Option JsVal
  | "mega-system" => some (.num 5)
  | "large" => some (.num 4)
  | "medium" => some (.num 4)
  | "small" => some (.num 2)
  | "very-small" => some (.num 1)
  | key => objectPrototypeMember key

/-- The property access `aiScoringMatrix.challenge[key]`: own properties, then the
members inherited from `Object.prototype`. -/
def aiScoringMatrix_challenge : String → Option JsVal
  | "nphies-compliance" => some (.num 5)
  | "staffing-shortage" => some (.num 4)
  | "manual-processes" => some (.num 4)
  | "denial-management" => some (.num 4)
  | "system-integration" => some (.num 3)
  | "cash-flow" => some (.num 2)
  | key => objectPrototypeMember key

/-- The property access `aiScoringMatrix.financialImpact[key]`: own properties,
then the members inherited from `Object.prototype`. -/
def aiScoringMatrix_financialImpact : String → Option JsVal
  | "critical-impact" => some (.num 5)
  | "high-impact" => some (.num 4)
  | "medium-impact" => some (.num 3)
  | "low-impact" => some (.num 2)
  | "minimal" => some (.num 1)
  | key => objectPrototypeMember key

/-- The property access `aiScoringMatrix.aiReadiness[key]`: own properties, then
the members inherited from `Object.prototype`. -/
def aiScoringMatrix_aiReadiness : String → Option JsVal
  | "ai-pioneer" => some (.num 5)
  | "very-open" => some (.num 4)
  | "open-with-pilot" => some (.num 4)
  | "cautious-proven" => some (.num 3)
  | "regulatory-concerns" => some (.num 2)
  | "traditional-focus" => some (.num 1)
  | key => objectPrototypeMember key

/-- The property key a value is converted to in `table[value]`:
`undefined` becomes the key `"undefined"`. -/
def propertyKey : Option String → String
  | some s => s
  | none => "undefined"

/-- The value `aiScore` computed in `selectOption` for step `n` from `dataset.value`
and `dataset.qualify`: the result of the property access on the table of the step
when it is truthy, else the three-level fallback on `qualify`. -/
def aiScoreOf (n : Nat) (value qualify : Option String) : JsVal :=
  if n = 1 ∧ truthy (aiScoringMatrix_role (propertyKey value)) = true then
    (aiScoringMatrix_role (propertyKey value)).getD (.num 0)
  else if n = 2 ∧ truthy (aiScoringMatrix_organizationSize (propertyKey value)) = true then
    (aiScoringMatrix_organizationSize (propertyKey value)).getD (.num 0)
  else if n = 3 ∧ truthy (aiScoringMatrix_challenge (propertyKey value)) = true then
    (aiScoringMatrix_challenge (propertyKey value)).getD (.num 0)
  else if n = 4 ∧ truthy (aiScoringMatrix_financialImpact (propertyKey value)) = true then
    (aiScoringMatrix_financialImpact (propertyKey value)).getD (.num 0)
  else if n = 5 ∧ truthy (aiScoringMatrix_aiReadiness (propertyKey value)) = true then
    (aiScoringMatrix_aiReadiness (propertyKey value)).getD (.num 0)
  else
    if qualify = some "high" then .num 3 else if qualify = some "medium" then .num 2
    else .num 1

/-- The expression `btn.dataset.sar ? Number(btn.dataset.sar) : undefined`. -/
def sarOf (sar : Option String) : Option JsVal :=
  match sar with
  | some s =>
    if s ≠ "" then
      some (match stringToNumber s with
            | some n => .num n
            | none => .nan)
    else none
  | none => none

/-- The function `selectOption(btn)`: compute `aiScore`, take the previous
contribution of the current slot out of `score` when it is truthy, add the new one,
and overwrite `answers["q" + current]`. -/
def selectOption (st : State) (btn : Btn) : State :=
  let n := st.current
  let aiScore := aiScoreOf n btn.value btn.qualify
  let score :=
    match st.slots n with
    | some prev =>
      if prev.aiScore.truthy = true then jsSub st.score prev.aiScore else st.score
    | none => st.score
  { st with
    score := jsAdd score aiScore
    slots := Function.update st.slots n
      (some { value := btn.value, qualify := btn.qualify, text := btn.title,
              sar := sarOf btn.sar, aiScore := aiScore }) }

/-! ## Recommendations, navigation and results -/

/-- The function `generateAIRecommendations()`: reads `answers.q1?.value`,
`answers.q3?.value` and `answers.q4?.value` and pushes at most one string per rule
group, role first, then challenge, then financial impact. -/
def generateAIRecommendations (st : State) : List String :=
  let challenge := (st.slots 3).bind (fun a => a.value)
  let role := (st.slots 1).bind (fun a => a.value)
  let financialImpact := (st.slots 4).bind (fun a => a.value)
  let r1 : List String :=
    if role = some "rcm-director" ∨ role = some "practice-admin" then
      ["Strategic RCM transformation with executive dashboard"]
    else if role = some "billing-manager" then
      ["Automated billing and denial management solutions"]
    else if role = some "it-manager" then
      ["System integration and API-based workflow automation"]
    else []
  let r2 : List String :=
    if challenge = some "nphies-compliance" then
      ["NPHIES-compliant automated submission and tracking"]
    else if challenge = some "staffing-shortage" then
      ["AI-powered staff augmentation and training programs"]
    else if challenge = some "manual-processes" then
      ["End-to-end process automation with RPA"]
    else []
  let r3 : List String :=
    if financialImpact = some "critical-impact" ∨ financialImpact = some "high-impact" then
      ["Priority implementation with immediate ROI focus"]
    else []
  r1 ++ r2 ++ r3

/-- The values of the contact form inputs `#fullName`, `#email`, `#organization`,
`#phone`, `#location` and `#jobTitle` at the time `next` reads them. -/
structure ContactForm where
  fullName : String
  email : String
  organization : String
  phone : String
  location : String
  jobTitle : String
  deriving DecidableEq, Repr

/-- The function `next()`: on the last step it gates on the three required contact
fields, records `answers.contact` and the recommendations (then shows the results);
on any other step it advances `current`. -/
def next (st : State) (form : ContactForm) : State :=
  if st.current = totalQuestions then
    let name := jsTrim form.fullName
    let email := jsTrim form.email
    let org := jsTrim form.organization
    if name = "" ∨ email = "" ∨ org = "" then st
    else
      let st1 : State :=
        { st with
          contact := some
            { name := name, email := email, organization := org,
              phone := jsTrim form.phone, location := jsTrim form.location,
              jobTitle := jsTrim form.jobTitle } }
      { st1 with aiRecommendations := generateAIRecommendations st1 }
  else { st with current := st.current + 1 }

/-- The function `prev()`. -/
def prev (st : State) : State :=
  if st.current = 1 then st else { st with current := st.current - 1 }

/-- The local variable `priority` chosen by the ladder of `showResults()`. -/
def showResults_priority (score : JsVal) : String :=
  if jsGe score 20 = true then "critical"
  else if jsGe score 15 = true then "high"
  else if jsGe score 10 = true then "medium"
  else if jsGe score 6 = true then "low"
  else "minimal"

/-- The label written after `Priority Level: ` in the e-mail body of `submitSurvey()`. -/
def submitSurvey_priorityLevel (score : JsVal) : String :=
  if jsGe score 20 = true then "Critical" else if jsGe score 15 = true then "High"
  else if jsGe score 10 = true then "Medium" else if jsGe score 6 = true then "Low"
  else "Minimal"

/-- The expression bound to `qualificationLevel` in the API payload of
`submitSurvey()`. -/
def qualificationLevel (score : JsVal) : String :=
  if jsGe score 20 = true then "critical" else if jsGe score 15 = true then "high"
  else if jsGe score 10 = true then "medium" else if jsGe score 6 = true then "low"
  else "minimal"

/-- The object `apiPayload` built by `submitSurvey()`; `slots` and `contact` together
are its `answers` member. -/
structure ApiPayload where
  slots : Nat → Option Answer
  contact : Option Contact
  score : JsVal
  aiRecommendations : List String
  qualificationLevel : String
  timestamp : String
  version : String

/-- The payload part of `submitSurvey()`; `timestamp` is the value of
`new Date().toLocaleString('en-SA')`. -/
def submitSurvey (st : State) (timestamp : String) : ApiPayload :=
  { slots := st.slots
    contact := st.contact
    score := st.score
    aiRecommendations := st.aiRecommendations
    qualificationLevel := qualificationLevel st.score
    timestamp := timestamp
    version := "2.0" }

/-! ## Selection sequences -/

/-- One option selection on slot `n`: `selectOption` called while step `n` is shown.
Between two selections the user moves with `next` and `prev`, which on the question
steps change `current` only. -/
def selectAt (st : State) (n : Nat) (btn : Btn) : State :=
  selectOption { st with current := n } btn

/-- A sequence of option selections, each on its own slot, applied in order. -/
def selectAll (st : State) (sels : List (Nat × Btn)) : State :=
  sels.foldl (fun s p => selectAt s p.1 p.2) st

/-- The contribution slot `n` makes to the total: the stored `aiScore`, or `0` when
the slot holds no answer. -/
def slotScore (st : State) (n : Nat) : JsVal :=
  match st.slots n with
  | some a => a.aiScore
  | none => .num 0

/-- Three selections used as a concrete instance: `large` on q2, `rcm-director` on q1,
then `small` on q2 again. -/
def sampleSelections : List (Nat × Btn) :=
  [(2, ⟨some "high", some "large", "Large", none⟩),
   (1, ⟨some "high", some "rcm-director", "Director", none⟩),
   (2, ⟨some "low", some "small", "Small", none⟩)]

/-- The contact form of the end-to-end scenario. -/
def scenarioForm : ContactForm :=
  { fullName := "A", email := "a@b.com", organization := "Org",
    phone := "", location := "", jobTitle := "" }

/-- The end-to-end scenario: from the initial state the user selects `rcm-director`,
`large`, `nphies-compliance`, `critical-impact` (with `data-sar` 800000) and
`ai-pioneer`, pressing Next after each, and completes the contact step. The
qualifiers `k` and titles `t` of the five buttons are arbitrary. -/
def scenario (k : Nat → Option String) (t : Nat → String) : State :=
  let s1 := next (selectOption State.initial ⟨k 1, some "rcm-director", t 1, none⟩) scenarioForm
  let s2 := next (selectOption s1 ⟨k 2, some "large", t 2, none⟩) scenarioForm
  let s3 := next (selectOption s2 ⟨k 3, some "nphies-compliance", t 3, none⟩) scenarioForm
  let s4 := next (selectOption s3 ⟨k 4, some "critical-impact", t 4, some "800000"⟩) scenarioForm
  let s5 := next (selectOption s4 ⟨k 5, some "ai-pioneer", t 5, none⟩) scenarioForm
  next s5 scenarioForm

/-! ## Names for the statements about weights, tiers and recommendations -/

/-- The property access `selectOption` makes on step `n`: the table of the step; no
table on any other step. -/
def slotTable (n : Nat) : String → Option JsVal :=
  match n with
  | 1 => aiScoringMatrix_role
  | 2 => aiScoringMatrix_organizationSize
  | 3 => aiScoringMatrix_challenge
  | 4 => aiScoringMatrix_financialImpact
  | 5 => aiScoringMatrix_aiReadiness
  | _ => fun _ => none

/-- The number stored as `aiScore` in slot `n`; 0 when the slot holds no answer or
its `aiScore` is no number. -/
def slotWeight (st : State) (n : Nat) : Int :=
  match st.slots n with
  | some a =>
    match a.aiScore with
    | .num w => w
    | _ => 0
  | none => 0

/-- The invariant of the running score while every stored `aiScore` is a number: the
score is the sum of the stored weights of the five question slots, only those slots
hold answers, and each stored weight is a number between 1 and 5, the one computed
for the stored option. -/
def ScoreInv (st : State) : Prop :=
  st.score = .num (slotWeight st 1 + slotWeight st 2 + slotWeight st 3 + slotWeight st 4 +
      slotWeight st 5) ∧
  ∀ n a, st.slots n = some a →
    (1 ≤ n ∧ n ≤ 5) ∧ a.aiScore = aiScoreOf n a.value a.qualify ∧
      ∃ w : Int, a.aiScore = .num w ∧ 1 ≤ w ∧ w ≤ 5

/-- An option button whose `data-value` is `constructor`, the name of a member every
object inherits from `Object.prototype`. -/
def constructorBtn : Btn :=
  { qualify := some "high", value := some "constructor", title := "Option", sar := none }

/-- An option button whose `data-value` is `__proto__`. -/
def protoBtn : Btn :=
  { qualify := some "high", value := some "__proto__", title := "Option", sar := none }

/-- The option button of the role `rcm-director`. -/
def directorBtn : Btn :=
  { qualify := some "high", value := some "rcm-director", title := "Director", sar := none }

/-- An option button of the financial impact whose `data-sar` is no number. -/
def badSarBtn : Btn :=
  { qualify := some "high", value := some "critical-impact", title := "Critical",
    sar := some "abc" }

/-- The five selections with the largest weight of each slot. -/
def maxSelections : List (Nat × Btn) :=
  [(1, ⟨some "high", some "rcm-director", "Director", none⟩),
   (2, ⟨some "high", some "mega-system", "Mega", none⟩),
   (3, ⟨some "high", some "nphies-compliance", "NPHIES", none⟩),
   (4, ⟨some "high", some "critical-impact", "Critical", some "800000"⟩),
   (5, ⟨some "high", some "ai-pioneer", "Pioneer", none⟩)]

/-- The position of a tier in the order minimal < low < medium < high < critical. -/
def levelRank (level : String) : Nat :=
  if level = "critical" then 4
  else if level = "high" then 3
  else if level = "medium" then 2
  else if level = "low" then 1
  else 0

/-- The role group of the recommendations: the one string a recognized role
contributes, nothing otherwise. -/
def roleGroup : Option String → List String
  | some "rcm-director" => ["Strategic RCM transformation with executive dashboard"]
  | some "practice-admin" => ["Strategic RCM transformation with executive dashboard"]
  | some "billing-manager" => ["Automated billing and denial management solutions"]
  | some "it-manager" => ["System integration and API-based workflow automation"]
  | _ => []

/-- The challenge group of the recommendations. -/
def challengeGroup : Option String → List String
  | some "nphies-compliance" => ["NPHIES-compliant automated submission and tracking"]
  | some "staffing-shortage" => ["AI-powered staff augmentation and training programs"]
  | some "manual-processes" => ["End-to-end process automation with RPA"]
  | _ => []

/-- The impact group of the recommendations. -/
def impactGroup : Option String → List String
  | some "critical-impact" => ["Priority implementation with immediate ROI focus"]
  | some "high-impact" => ["Priority implementation with immediate ROI focus"]
  | _ => []

/-- The value `answers.qN?.value` of a state. -/
def slotValue (st : State) (n : Nat) : Option String :=
  (st.slots n).bind (fun a => a.value)

/-- A second state with the role, challenge and impact of the end-to-end scenario
and nothing else in common with it: q2 and q5 unanswered, no contact, other titles
and qualifiers. -/
def sparseState : State :=
  selectAll State.initial
    [(4, ⟨some "low", some "critical-impact", "Impact", none⟩),
     (1, ⟨some "low", some "rcm-director", "Role", none⟩),
     (3, ⟨none, some "nphies-compliance", "Challenge", none⟩)]

/-- The method `String.prototype.toLowerCase` on the label of a tier. -/
def toLowerCase (s : String) : String :=
  ⟨s.data.map Char.toLower⟩

end App


namespace Worker

/-! ## Request bodies and the validation schema (src/worker.js) -/

/-- A value produced by `request.json()`. An object is the list of its members, read
with `List.lookup`; numbers are integers (fractions and `Infinity` are outside the
model). -/
inductive Json where
  | null
  | bool (b : Bool)
  | num (n : Int)
  | str (s : String)
  | arr (xs : List Json)
  | obj (members : List (String × Json))

/-- The member `j[k]` of a parsed value: `none` stands for `undefined`. -/
def Json.get (j : Json) (k : String) : Option Json :=
  match j with
  | .obj members => members.lookup k
  | _ => none

/-- An answer `{ value, text, sar?, aiScore }` as it leaves the schema (unknown keys
are stripped; `sar` exists in the q4 shape only). -/
structure SlotAnswer where
  value : String
  text : String
  sar : Option Int
  aiScore : Int
  deriving DecidableEq, Repr

/-- The validated `answers.contact`. -/
structure ContactInfo where
  name : String
  email : String
  organization : String
  phone : Option String
  location : Option String
  jobTitle : Option String
  deriving DecidableEq, Repr

/-- The validated `answers`. -/
structure SurveyAnswers where
  q1 : Option SlotAnswer
  q2 : Option SlotAnswer
  q3 : Option SlotAnswer
  q4 : Option SlotAnswer
  q5 : Option SlotAnswer
  contact : ContactInfo
  deriving DecidableEq, Repr

/-- The output type of `SurveyResponseSchema`. -/
structure SurveyResponse where
  answers : SurveyAnswers
  score : Int
  aiRecommendations : List String
  qualificationLevel : String
  timestamp : String
  version : String
  deriving DecidableEq, Repr

/-- The schema `z.string()`. -/
def zString : Option Json → Option String
  | some (.str s) => some s
  | _ => none

/-- The schema `z.number()`. -/
def zNumber : Option Json → Option Int
  | some (.num n) => some n
  | _ => none

/-- The modifier `.optional()`: `undefined` is accepted as is, anything else goes
through the inner schema. -/
def zOptional {α : Type} (inner : Option Json → Option α) : Option Json → Option (Option α)
  | none => some none
  | some j => (inner (some j)).map some

/-- The schema `z.string().email()`; `isEmail` is the e-mail test of the zod library. -/
def zEmail (isEmail : String → Bool) (j : Option Json) : Option String :=
  match zString j with
  | some s => if isEmail s then some s else none
  | none => none

/-- The schema `z.array(z.string())`. -/
def zStringArray : Option Json → Option (List String)
  | some (.arr xs) => xs.mapM (fun x => zString (some x))
  | _ => none

/-- The schema `z.enum(['critical', 'high', 'medium', 'low', 'minimal'])`. -/
def zLevel (j : Option Json) : Option String :=
  match zString j with
  | some s => if s ∈ ["critical", "high", "medium", "low", "minimal"] then some s else none
  | none => none

/-- The schema `z.string().default('2.0')`. -/
def zVersion : Option Json → Option String
  | none => some "2.0"
  | some j => zString (some j)

/-- The object schema of q1, q2, q3 and q5: `{ value, text, aiScore }`. -/
def zSlot : Option Json → Option SlotAnswer
  | some (.obj members) =>
    match zString (members.lookup "value"), zString (members.lookup "text"),
        zNumber (members.lookup "aiScore") with
    | some value, some text, some aiScore =>
      some { value := value, text := text, sar := none, aiScore := aiScore }
    | _, _, _ => none
  | _ => none

/-- The object schema of q4: `{ value, text, sar?, aiScore }`. -/
def zSlotSar : Option Json → Option SlotAnswer
  | some (.obj members) =>
    match zString (members.lookup "value"), zString (members.lookup "text"),
        zOptional zNumber (members.lookup "sar"), zNumber (members.lookup "aiScore") with
    | some value, some text, some sar, some aiScore =>
      some { value := value, text := text, sar := sar, aiScore := aiScore }
    | _, _, _, _ => none
  | _ => none

/-- The object schema of `answers.contact`. -/
def zContact (isEmail : String → Bool) : Option Json → Option ContactInfo
  | some (.obj members) =>
    match zString (members.lookup "name"), zEmail isEmail (members.lookup "email"),
        zString (members.lookup "organization"), zOptional zString (members.lookup "phone"),
        zOptional zString (members.lookup "location"),
        zOptional zString (members.lookup "jobTitle") with
    | some name, some email, some organization, some phone, some location, some jobTitle =>
      some { name := name, email := email, organization := organization, phone := phone,
             location := location, jobTitle := jobTitle }
    | _, _, _, _, _, _ => none
  | _ => none

/-- The object schema of `answers`. -/
def zAnswers (isEmail : String → Bool) : Option Json → Option SurveyAnswers
  | some (.obj members) =>
    match zOptional zSlot (members.lookup "q1"), zOptional zSlot (members.lookup "q2"),
        zOptional zSlot (members.lookup "q3"), zOptional zSlotSar (members.lookup "q4"),
        zOptional zSlot (members.lookup "q5"), zContact isEmail (members.lookup "contact") with
    | some q1, some q2, some q3, some q4, some q5, some contact =>
      some { q1 := q1, q2 := q2, q3 := q3, q4 := q4, q5 := q5, contact := contact }
    | _, _, _, _, _, _ => none
  | _ => none

/-- The call `SurveyResponseSchema.parse(body)`: the validated data, or `none` when
a `ZodError` is thrown. -/
def SurveyResponseSchema_parse (isEmail : String → Bool) : Json → Option SurveyResponse
  | .obj members =>
    match zAnswers isEmail (members.lookup "answers"), zNumber (members.lookup "score"),
        zStringArray (members.lookup "aiRecommendations"),
        zLevel (members.lookup "qualificationLevel"), zString (members.lookup "timestamp"),
        zVersion (members.lookup "version") with
    | some answers, some score, some aiRecommendations, some qualificationLevel,
        some timestamp, some version =>
      some { answers := answers, score := score, aiRecommendations := aiRecommendations,
             qualificationLevel := qualificationLevel, timestamp := timestamp,
             version := version }
    | _, _, _, _, _, _ => none
  | _ => none

/-! ## The submission pipeline (src/worker.js) -/

/-- The values bound, in this order, to the `INSERT INTO survey_responses` statement. -/
structure SurveyRow where
  id : String
  timestamp : String
  contact_name : String
  contact_email : String
  contact_organization : String
  contact_phone : Option String
  contact_location : Option String
  contact_job_title : Option String
  role_value : Option String
  role_text : Option String
  role_score : Int
  organization_size_value : Option String
  organization_size_text : Option String
  organization_size_score : Int
  primary_challenge_value : Option String
  primary_challenge_text : Option String
  primary_challenge_score : Int
  financial_impact_value : Option String
  financial_impact_text : Option String
  financial_impact_sar : Option Int
  financial_impact_score : Int
  ai_readiness_value : Option String
  ai_readiness_text : Option String
  ai_readiness_score : Int
  total_score : Int
  qualification_level : String
  ai_recommendations : List String
  priority_score : Int
  processing_status : String
  language_preference : String
  deriving DecidableEq, Repr

/-- The object written to the `SURVEY_RESPONSES` namespace:
`{ ...validatedData, id, processedAt }`. -/
structure CachedResponse where
  data : SurveyResponse
  id : String
  processedAt : String
  deriving DecidableEq, Repr

/-- The `details` object of the audit entry of a submission. -/
structure AuditDetails where
  responseId : String
  organization : String
  score : Int
  qualificationLevel : String
  deriving DecidableEq, Repr

/-- The values bound to the `INSERT INTO audit_log` statement by `createAuditLog`. -/
structure AuditEntry where
  id : String
  timestamp : String
  event_type : String
  action : String
  details : AuditDetails
  success : Bool
  compliance_flags : List String
  deriving DecidableEq, Repr

/-- The object returned by `generateAIInsights`. -/
structure AIInsights where
  insights : List String
  trends : List String
  recommendations : List String
  deriving DecidableEq, Repr

/-- The bindings and the surroundings of one request. `randomUUID k` and `now k` are
the results of the `k`-th call (from 0) of `crypto.randomUUID()` and of
`new Date().toISOString()`. Each `...Error` member tells whether the awaited call
rejects, and with which message; `aiRun` is the body of the `try` block of
`generateAIInsights`: `new Ai(env.AI)`, `ai.run(...)` and the read of
`response.response`. -/
structure Env where
  ENABLE_AI_ANALYSIS : Option String
  randomUUID : Nat → String
  now : Nat → String
  surveyInsertError : SurveyRow → Option String
  kvPutError : String → CachedResponse → Nat → Option String
  aiRun : SurveyResponse → Except String (Option String)
  auditInsertError : AuditEntry → Option String

/-- A call issued to a collaborator: the durable store, the cache, the advisory
service, the audit log. -/
inductive Effect where
  | surveyInsert (row : SurveyRow)
  | kvPut (key : String) (value : CachedResponse) (expirationTtl : Nat)
  | aiRun (surveyData : SurveyResponse)
  | auditInsert (entry : AuditEntry)
  deriving DecidableEq, Repr

/-- What the `catch` block of the handler receives. -/
inductive Thrown where
  | invalidJson
  | zodError
  | rejected (message : String)
  deriving DecidableEq, Repr

/-- The JSON body of a response of `/api/submit`: the success object
`{ success: true, responseId, qualificationLevel, score, aiInsights, timestamp }` or
the failure object `{ success: false, error, details }`. -/
inductive ResponseBody where
  | submitted (responseId : String) (qualificationLevel : String) (score : Int)
      (aiInsights : AIInsights) (timestamp : String)
  | failed (error : String) (details : Thrown)
  deriving DecidableEq, Repr

/-- The member `success` of a response body. -/
def ResponseBody.success : ResponseBody → Bool
  | .submitted _ _ _ _ _ => true
  | .failed _ _ => false

/-- The member `responseId` of a response body, when it has one. -/
def ResponseBody.responseId : ResponseBody → Option String
  | .submitted responseId _ _ _ _ => some responseId
  | .failed _ _ => none

/-- A `Response`: status and JSON body (the CORS headers are left out). -/
structure Response where
  status : Nat
  body : ResponseBody
  deriving DecidableEq, Repr

/-- The expression `s || null` on an optional string: a missing or empty string
gives `null`. -/
def strOrNull : Option String → Option String
  | some s => if s = "" then none else some s
  | none => none

/-- The expression `n || null` on an optional number. -/
def numOrNull : Option Int → Option Int
  | some n => if n = 0 then none else some n
  | none => none

/-- The expression `n || 0` on an optional number. -/
def numOrZero : Option Int → Int
  | some n => n
  | none => 0

/-- The entry `createAuditLog(env, eventType, action, details)` inserts; `calls` is
the number of identifiers and dates generated earlier in the request. -/
def createAuditLog_entry (env : Env) (calls : Nat) (eventType action : String)
    (details : AuditDetails) : AuditEntry :=
  { id := env.randomUUID calls
    timestamp := env.now calls
    event_type := eventType
    action := action
    details := details
    success := true
    compliance_flags := ["GDPR", "HIPAA", "NPHIES"] }

/-- The function `generateAIInsights(env, surveyData)` with the calls it issues. It
returns early unless `ENABLE_AI_ANALYSIS` is the string `true`, and its `try` block
turns a failing advisory call into an empty insight list. -/
def generateAIInsights (env : Env) (surveyData : SurveyResponse) :
    AIInsights × List Effect :=
  if strOrNull env.ENABLE_AI_ANALYSIS = none ∨ env.ENABLE_AI_ANALYSIS ≠ some "true" then
    ({ insights := [], trends := [], recommendations := [] }, [])
  else
    match env.aiRun surveyData with
    | .ok response =>
      ({ insights := match strOrNull response with
                     | some text => [text]
                     | none => []
         trends := ["AI adoption in Saudi healthcare", "NPHIES compliance challenges"]
         recommendations := surveyData.aiRecommendations },
       [.aiRun surveyData])
    | .error _ =>
      ({ insights := [], trends := [], recommendations := surveyData.aiRecommendations },
       [.aiRun surveyData])

/-- The constant `priorityScore` of the handler: the sum, as the double the handler
holds, of the score and the bonus of the level. -/
def priorityScore (validatedData : SurveyResponse) : Int :=
  App.roundDouble (validatedData.score +
    (if validatedData.qualificationLevel = "critical" then 10
     else if validatedData.qualificationLevel = "high" then 5 else 0))

/-- The values the handler binds to the `INSERT INTO survey_responses` statement. -/
def surveyRow (responseId now : String) (validatedData : SurveyResponse) : SurveyRow :=
  let contact := validatedData.answers.contact
  let q1 := validatedData.answers.q1
  let q2 := validatedData.answers.q2
  let q3 := validatedData.answers.q3
  let q4 := validatedData.answers.q4
  let q5 := validatedData.answers.q5
  { id := responseId
    timestamp := now
    contact_name := contact.name
    contact_email := contact.email
    contact_organization := contact.organization
    contact_phone := strOrNull contact.phone
    contact_location := strOrNull contact.location
    contact_job_title := strOrNull contact.jobTitle
    role_value := strOrNull (q1.map (fun a => a.value))
    role_text := strOrNull (q1.map (fun a => a.text))
    role_score := numOrZero (q1.map (fun a => a.aiScore))
    organization_size_value := strOrNull (q2.map (fun a => a.value))
    organization_size_text := strOrNull (q2.map (fun a => a.text))
    organization_size_score := numOrZero (q2.map (fun a => a.aiScore))
    primary_challenge_value := strOrNull (q3.map (fun a => a.value))
    primary_challenge_text := strOrNull (q3.map (fun a => a.text))
    primary_challenge_score := numOrZero (q3.map (fun a => a.aiScore))
    financial_impact_value := strOrNull (q4.map (fun a => a.value))
    financial_impact_text := strOrNull (q4.map (fun a => a.text))
    financial_impact_sar := numOrNull (q4.bind (fun a => a.sar))
    financial_impact_score := numOrZero (q4.map (fun a => a.aiScore))
    ai_readiness_value := strOrNull (q5.map (fun a => a.value))
    ai_readiness_text := strOrNull (q5.map (fun a => a.text))
    ai_readiness_score := numOrZero (q5.map (fun a => a.aiScore))
    total_score := validatedData.score
    qualification_level := validatedData.qualificationLevel
    ai_recommendations := validatedData.aiRecommendations
    priority_score := priorityScore validatedData
    processing_status := "processed"
    language_preference := "en" }

/-- The response of the `catch` block of the handler. -/
def catchResponse (error : Thrown) : Response :=
  { status := 400, body := .failed "Invalid request data" error }

/-- The handler `router.post('/api/submit', ...)`: the response and the calls issued,
in order. `body` is the result of `request.json()`, `none` when it throws. Every
awaited call sits in the one `try` block, whose `catch` answers 400. -/
def submitHandler (isEmail : String → Bool) (env : Env) (body : Option Json) :
    Response × List Effect :=
  match body with
  | none => (catchResponse .invalidJson, [])
  | some body =>
    match SurveyResponseSchema_parse isEmail body with
    | none => (catchResponse .zodError, [])
    | some validatedData =>
      let responseId := env.randomUUID 0
      let now := env.now 0
      let row := surveyRow responseId now validatedData
      match env.surveyInsertError row with
      | some message => (catchResponse (.rejected message), [.surveyInsert row])
      | none =>
        let cached : CachedResponse :=
          { data := validatedData, id := responseId, processedAt := now }
        let ttl := 86400 * 365
        match env.kvPutError responseId cached ttl with
        | some message =>
          (catchResponse (.rejected message),
            [.surveyInsert row, .kvPut responseId cached ttl])
        | none =>
          let ai := generateAIInsights env validatedData
          let entry := createAuditLog_entry env 1 "survey_submit" "create"
            { responseId := responseId
              organization := validatedData.answers.contact.organization
              score := validatedData.score
              qualificationLevel := validatedData.qualificationLevel }
          let calls := [Effect.surveyInsert row, .kvPut responseId cached ttl] ++ ai.2 ++
            [.auditInsert entry]
          match env.auditInsertError entry with
          | some message => (catchResponse (.rejected message), calls)
          | none =>
            ({ status := 200
               body := .submitted responseId validatedData.qualificationLevel
                 validatedData.score ai.1 now },
             calls)

/-! ## Reading and replacing members of a request body -/

/-- The member reached from `j` through the keys `path`, `none` when a step is
missing. -/
def Json.path : List String → Json → Option Json
  | [], j => some j
  | k :: ks, j =>
    match j.get k with
    | some child => Json.path ks child
    | none => none

/-- The member list with the value of the member `k` replaced by `v`; a list without
that member is left as it is. -/
def replaceMember : List (String × Json) → String → Json → List (String × Json)
  | [], _, _ => []
  | (k', v') :: rest, k, v =>
    if k' = k then (k, v) :: rest else (k', v') :: replaceMember rest k v

/-- The body `j` with the member at `path` replaced by `v`; a body without that
member is left as it is. -/
def Json.replacePath : List String → Json → Json → Json
  | [], _, v => v
  | k :: ks, .obj members, v =>
    match members.lookup k with
    | some child => .obj (replaceMember members k (Json.replacePath ks child v))
    | none => .obj members
  | _ :: _, j, _ => j

/-- A contact-only request body: no q1..q5, the three required contact members. -/
def contactOnlyBody (name email organization : String) : Json :=
  .obj [("answers", .obj [("contact", .obj [("name", .str name), ("email", .str email),
                                             ("organization", .str organization)])]),
        ("score", .num 0), ("aiRecommendations", .arr []),
        ("qualificationLevel", .str "minimal"), ("timestamp", .str "1/1/2025")]

/-- The validated form of `contactOnlyBody name email organization`. -/
def contactOnlyData (name email organization : String) : SurveyResponse :=
  { answers :=
      { q1 := none, q2 := none, q3 := none, q4 := none, q5 := none
        contact := { name := name, email := email, organization := organization,
                     phone := none, location := none, jobTitle := none } }
    score := 0
    aiRecommendations := []
    qualificationLevel := "minimal"
    timestamp := "1/1/2025"
    version := "2.0" }

/-- A request body whose contact has a name and an organization and no `email`. -/
def bodyWithoutEmail : Json :=
  .obj [("answers", .obj [("contact", .obj [("name", .str "A"),
                                             ("organization", .str "Org")])]),
        ("score", .num 0), ("aiRecommendations", .arr []),
        ("qualificationLevel", .str "minimal"), ("timestamp", .str "1/1/2025")]

/-! ## The body the client sends (public/assets/app.js to src/worker.js) -/

/-- The member `key` of an object as `JSON.stringify` writes it for the value `v`:
left out for `undefined` and for a function, `null` for `NaN`, `{}` for
`Object.prototype` (which has no enumerable property of its own). -/
def jsonMember (key : String) (v : Option App.JsVal) : List (String × Json) :=
  match v with
  | none => []
  | some (.fn _) => []
  | some (.num n) => [(key, .num n)]
  | some .nan => [(key, .null)]
  | some (.str s) => [(key, .str s)]
  | some .objectPrototype => [(key, .obj [])]

/-- The text `JSON.stringify` gives for an answer record, read back by
`request.json()`: the members `value`, `qualify`, `text`, `sar`, `aiScore` in this
order, a member whose value is `undefined` or a function being left out. -/
def answerJson (a : App.Answer) : Json :=
  .obj ((match a.value with
         | some s => [("value", Json.str s)]
         | none => []) ++
        (match a.qualify with
         | some s => [("qualify", Json.str s)]
         | none => []) ++
        [("text", Json.str a.text)] ++
        jsonMember "sar" a.sar ++
        jsonMember "aiScore" (some a.aiScore))

/-- The contact record as sent: six string members. -/
def clientContactJson (c : App.Contact) : Json :=
  .obj [("name", .str c.name), ("email", .str c.email),
        ("organization", .str c.organization), ("phone", .str c.phone),
        ("location", .str c.location), ("jobTitle", .str c.jobTitle)]

/-- The member `key` of `answers` for slot `n`, present when the slot holds an
answer. -/
def slotMember (slots : Nat → Option App.Answer) (n : Nat) (key : String) :
    List (String × Json) :=
  match slots n with
  | some a => [(key, answerJson a)]
  | none => []

/-- The object `answers` as sent: the answered steps (`current` ranges over 1..6, so
the keys are among q1..q6) and the contact when recorded. The keys are distinct, so
the order of the members, which in the browser is the order of first selection, plays
no part in a lookup. -/
def answersJson (slots : Nat → Option App.Answer) (contact : Option App.Contact) : Json :=
  .obj (slotMember slots 1 "q1" ++ slotMember slots 2 "q2" ++ slotMember slots 3 "q3" ++
        slotMember slots 4 "q4" ++ slotMember slots 5 "q5" ++ slotMember slots 6 "q6" ++
        (match contact with
         | some c => [("contact", clientContactJson c)]
         | none => []))

/-- The request body `JSON.stringify(apiPayload)` of `submitSurvey`, as
`request.json()` returns it. -/
def payloadJson (p : App.ApiPayload) : Json :=
  .obj ([("answers", answersJson p.slots p.contact)] ++ jsonMember "score" (some p.score) ++
        [("aiRecommendations", .arr (p.aiRecommendations.map Json.str)),
         ("qualificationLevel", .str p.qualificationLevel),
         ("timestamp", .str p.timestamp), ("version", .str p.version)])

/-- The client state at submit time after the selections `sels` and the contact step
completed with `form`. -/
def submitState (sels : List (Nat × App.Btn)) (form : App.ContactForm) : App.State :=
  App.next { App.selectAll App.State.initial sels with current := App.totalQuestions } form

/-! ## The analytics dashboard (src/worker.js) -/

/-- The five aggregate queries of `/api/analytics`, in the order the handler runs
them. -/
inductive AggregateQuery where
  | totalResponses
  | avgScore
  | qualificationDistribution
  | challengeDistribution
  | monthlyTrends
  deriving DecidableEq, Repr

/-- What the handler takes from the results of the five queries on the current
record set: `totalResponses?.count || 0`, ten times the average rounded to one
decimal, and the rows of the three distributions (each row as its JSON text). -/
structure Aggregates where
  totalResponses : Int
  avgScoreTenths : Int
  qualificationDistribution : List String
  challengeDistribution : List String
  monthlyTrends : List String
  deriving DecidableEq, Repr

/-- The object `analyticsData`; `generatedAt` is the instant, in milliseconds, that
the ISO string of `summary.generatedAt` renders. -/
structure AnalyticsSnapshot where
  totalResponses : Int
  avgScoreTenths : Int
  generatedAt : Nat
  qualificationDistribution : List String
  challengeDistribution : List String
  monthlyTrends : List String
  deriving DecidableEq, Repr

/-- An entry of the `ANALYTICS_CACHE` namespace under a key
`analytics_dashboard_<date>`: `day` is the UTC day number the date renders,
`expiresAt` the instant in milliseconds at which the entry expires. -/
structure CacheEntry where
  day : Nat
  value : AnalyticsSnapshot
  expiresAt : Nat
  deriving DecidableEq, Repr

/-- The call `ANALYTICS_CACHE.get(cacheKey, 'json')` at the instant `now`: the value
stored under the key if its entry has not expired. -/
def cacheGet (cache : List CacheEntry) (day now : Nat) : Option AnalyticsSnapshot :=
  match cache.find? (fun e => e.day = day) with
  | some e => if now < e.expiresAt then some e.value else none
  | none => none

/-- The call `ANALYTICS_CACHE.put(cacheKey, value, { expirationTtl })` at the instant
`now`: the entry of the key is overwritten and expires `expirationTtl` seconds
later. -/
def cachePut (cache : List CacheEntry) (day : Nat) (value : AnalyticsSnapshot)
    (now expirationTtl : Nat) : List CacheEntry :=
  { day := day, value := value, expiresAt := now + expirationTtl * 1000 } ::
    cache.filter (fun e => e.day ≠ day)

/-- The surroundings of one analytics request: the instant `now` in milliseconds
(the readings of `new Date()` within one request are taken to be the same instant),
the aggregates of the current record set, and for each awaited call whether it
rejects, and with which message. -/
structure AnalyticsEnv where
  now : Nat
  aggregates : Aggregates
  cacheGetError : Option String
  queryError : AggregateQuery → Option String
  cachePutError : Option String
  auditInsertError : Option String

/-- A call issued by the analytics handler. -/
inductive AnalyticsEffect where
  | cacheGet (day : Nat)
  | query (q : AggregateQuery)
  | cachePut (day : Nat) (value : AnalyticsSnapshot) (expirationTtl : Nat)
  | auditInsert (eventType action dataType : String)
  deriving DecidableEq, Repr

/-- The JSON body of a response of `/api/analytics`: the snapshot, or
`{ error, details }`. -/
inductive AnalyticsBody where
  | snapshot (data : AnalyticsSnapshot)
  | failed (error details : String)
  deriving DecidableEq, Repr

/-- A response of `/api/analytics`. -/
structure AnalyticsResponse where
  status : Nat
  body : AnalyticsBody
  deriving DecidableEq, Repr

/-- The result of one analytics request: the response, the calls issued in order,
and the cache afterwards. -/
structure AnalyticsResult where
  response : AnalyticsResponse
  calls : List AnalyticsEffect
  cache : List CacheEntry
  deriving DecidableEq, Repr

/-- The response of the `catch` block of the analytics handler. -/
def analyticsCatch (message : String) : AnalyticsResponse :=
  { status := 500, body := .failed "Failed to fetch analytics" message }

/-- The awaited queries run one after the other: the message of the first that
rejects, if any, and the queries issued. -/
def runQueries (env : AnalyticsEnv) : List AggregateQuery → Option String × List AnalyticsEffect
  | [] => (none, [])
  | q :: qs =>
    match env.queryError q with
    | some message => (some message, [.query q])
    | none => ((runQueries env qs).1, .query q :: (runQueries env qs).2)

/-- The end of the analytics handler, common to a cache hit and a fresh snapshot:
the audit entry `data_access` / `analytics_view`, then the response. -/
def analyticsRespond (env : AnalyticsEnv) (data : AnalyticsSnapshot)
    (calls : List AnalyticsEffect) (cache : List CacheEntry) : AnalyticsResult :=
  match env.auditInsertError with
  | some message =>
    { response := analyticsCatch message
      calls := calls ++ [.auditInsert "data_access" "analytics_view" "dashboard_analytics"]
      cache := cache }
  | none =>
    { response := { status := 200, body := .snapshot data }
      calls := calls ++ [.auditInsert "data_access" "analytics_view" "dashboard_analytics"]
      cache := cache }

/-- The handler `router.get('/api/analytics', ...)` on the cache `cache`: the key is
the current UTC day; a cached snapshot is used as it is; otherwise the five queries
run, the snapshot is stamped with the current instant and cached with
`expirationTtl: 3600`. -/
def analyticsHandler (env : AnalyticsEnv) (cache : List CacheEntry) : AnalyticsResult :=
  let cacheKey := env.now / 86400000
  match env.cacheGetError with
  | some message =>
    { response := analyticsCatch message, calls := [.cacheGet cacheKey], cache := cache }
  | none =>
    match cacheGet cache cacheKey env.now with
    | some analyticsData => analyticsRespond env analyticsData [.cacheGet cacheKey] cache
    | none =>
      let queries := runQueries env
        [.totalResponses, .avgScore, .qualificationDistribution, .challengeDistribution,
         .monthlyTrends]
      match queries.1 with
      | some message =>
        { response := analyticsCatch message
          calls := .cacheGet cacheKey :: queries.2
          cache := cache }
      | none =>
        let analyticsData : AnalyticsSnapshot :=
          { totalResponses := env.aggregates.totalResponses
            avgScoreTenths := env.aggregates.avgScoreTenths
            generatedAt := env.now
            qualificationDistribution := env.aggregates.qualificationDistribution
            challengeDistribution := env.aggregates.challengeDistribution
            monthlyTrends := env.aggregates.monthlyTrends }
        match env.cachePutError with
        | some message =>
          { response := analyticsCatch message
            calls := .cacheGet cacheKey :: queries.2 ++
              [.cachePut cacheKey analyticsData 3600]
            cache := cache }
        | none =>
          analyticsRespond env analyticsData
            (.cacheGet cacheKey :: queries.2 ++ [.cachePut cacheKey analyticsData 3600])
            (cachePut cache cacheKey analyticsData env.now 3600)

/-- The aggregates of a record set of three responses, used in concrete instances. -/
def sampleAggregates : Aggregates :=
  { totalResponses := 3
    avgScoreTenths := 153
    qualificationDistribution := ["critical: 1", "medium: 2"]
    challengeDistribution := ["nphies-compliance: 3"]
    monthlyTrends := ["2025-01: 3"] }

/-- An analytics request at the instant `now` on the sample record set, every call
succeeding. -/
def analyticsEnvAt (now : Nat) : AnalyticsEnv :=
  { now := now
    aggregates := sampleAggregates
    cacheGetError := none
    queryError := fun _ => none
    cachePutError := none
    auditInsertError := none }

/-! ## Concrete requests and environments -/

/-- The weight a scoring table gives a value on the server side of the spec: the
number the table holds for it, 0 for any other value. -/
def tableWeight (table : String → Option App.JsVal) (value : String) : Int :=
  match table value with
  | some (.num n) => n
  | _ => 0

/-- The scoring of the spec applied on the server side: the table weight of the
value of each present slot (0 for a value outside the table), summed. The worker
has no such function; it is what the spec calls the recomputed score. -/
def specRecomputedScore (data : SurveyResponse) : Int :=
  ((data.answers.q1.map (fun a => tableWeight App.aiScoringMatrix_role a.value)).getD 0) +
  ((data.answers.q2.map
    (fun a => tableWeight App.aiScoringMatrix_organizationSize a.value)).getD 0) +
  ((data.answers.q3.map (fun a => tableWeight App.aiScoringMatrix_challenge a.value)).getD 0) +
  ((data.answers.q4.map
    (fun a => tableWeight App.aiScoringMatrix_financialImpact a.value)).getD 0) +
  ((data.answers.q5.map (fun a => tableWeight App.aiScoringMatrix_aiReadiness a.value)).getD 0)

/-- A stand-in for the e-mail test of the library, used in concrete instances only:
the address contains an `@`. -/
def containsAt (s : String) : Bool :=
  s.data.contains '@'

/-- An environment whose identifiers and dates are fixed and whose collaborators
behave as told: the flag, the error (if any) of the survey insert, of the cache put
and of the audit insert, and the result of the advisory call. -/
def mkEnv (flag : Option String) (surveyInsertError kvPutError auditInsertError : Option String)
    (aiRun : Except String (Option String)) : Env :=
  { ENABLE_AI_ANALYSIS := flag
    randomUUID := fun k => if k = 0 then "uuid-0" else "uuid-1"
    now := fun k => if k = 0 then "2025-01-01T00:00:00.000Z" else "2025-01-01T00:00:00.001Z"
    surveyInsertError := fun _ => surveyInsertError
    kvPutError := fun _ _ _ => kvPutError
    aiRun := fun _ => aiRun
    auditInsertError := fun _ => auditInsertError }

/-- A JSON answer object `{ value, text, aiScore }`. -/
def slotJson (value text : String) (aiScore : Int) : Json :=
  .obj [("value", .str value), ("text", .str text), ("aiScore", .num aiScore)]

/-- The JSON contact `{ name: "A", email: "a@b.com", organization: "Org" }`. -/
def contactJson : Json :=
  .obj [("name", .str "A"), ("email", .str "a@b.com"), ("organization", .str "Org")]

/-- A request body whose answers compute to 5 + 4 + 3 = 12 and whose `score` member
is `score`. -/
def bodyWithScore (score : Int) (level : String) : Json :=
  .obj [("answers", .obj [("q1", slotJson "rcm-director" "Director" 5),
                          ("q2", slotJson "large" "Large" 4),
                          ("q3", slotJson "system-integration" "Integration" 3),
                          ("contact", contactJson)]),
        ("score", .num score), ("aiRecommendations", .arr []),
        ("qualificationLevel", .str level), ("timestamp", .str "1/1/2025"),
        ("version", .str "2.0")]

/-- The validated form of `bodyWithScore score level`. -/
def dataWithScore (score : Int) (level : String) : SurveyResponse :=
  { answers :=
      { q1 := some { value := "rcm-director", text := "Director", sar := none, aiScore := 5 }
        q2 := some { value := "large", text := "Large", sar := none, aiScore := 4 }
        q3 := some { value := "system-integration", text := "Integration", sar := none,
                     aiScore := 3 }
        q4 := none
        q5 := none
        contact := { name := "A", email := "a@b.com", organization := "Org",
                     phone := none, location := none, jobTitle := none } }
    score := score
    aiRecommendations := []
    qualificationLevel := level
    timestamp := "1/1/2025"
    version := "2.0" }

/-- A request body without `answers.contact`: it does not pass the schema. -/
def bodyWithoutContact : Json :=
  .obj [("answers", .obj [("q1", slotJson "rcm-director" "Director" 5)]),
        ("score", .num 5), ("aiRecommendations", .arr []),
        ("qualificationLevel", .str "minimal"), ("timestamp", .str "1/1/2025")]

/-- What the schema needs of a stored answer: a value string, a number as `aiScore`,
and a `sar` that is absent or a number. -/
def SendableAnswer (a : App.Answer) : Prop :=
  a.value ≠ none ∧ (∃ w : Int, a.aiScore = .num w) ∧
    (a.sar = none ∨ ∃ k : Int, a.sar = some (.num k))

end Worker

/-! # Theorems -/

namespace App

/-! ## Helper lemmas on numbers -/

theorem roundNat_of_lt (m : Nat) (h : m < 2 ^ 53) : roundNat m = m := by
  have he : excessBits 971 m = 0 := by
    rw [show (971 : Nat) = 970 + 1 from rfl, excessBits, if_pos h]
  simp [roundNat, he]

/-- A sum or difference of magnitude below `2 ^ 53` is held exactly. -/
theorem roundDouble_of_small (x : Int) (h1 : -9007199254740992 < x)
    (h2 : x < 9007199254740992) : roundDouble x = x := by
  have hm : x.natAbs < 2 ^ 53 := by
    norm_num
    omega
  unfold roundDouble
  rw [roundNat_of_lt _ hm]
  split_ifs with h0
  · omega
  · omega

theorem jsGe_num (n k : Int) : jsGe (.num n) k = decide (k ≤ n) := rfl

theorem jsAdd_num (x y : Int) : jsAdd (.num x) (.num y) = .num (roundDouble (x + y)) := rfl

theorem jsSub_num (x y : Int) : jsSub (.num x) (.num y) = .num (roundDouble (x - y)) := rfl

/-! ## The qualification ladder (C1) -/

/-- C1: for every integer score, the `qualificationLevel` put in the API payload by
`submitSurvey` is `critical` iff the score is at least 20, `high` iff it is in 15..19,
`medium` iff in 10..14, `low` iff in 6..9 and `minimal` iff below 6; in particular
25, 19, 15, 14, 6, 5 give critical, high, high, medium, low, minimal. -/
theorem qualificationLevel_bands (st : State) (timestamp : String) :
    (submitSurvey st timestamp).qualificationLevel = qualificationLevel st.score ∧
    (∀ s : Int,
     (qualificationLevel (.num s) = "critical" ↔ 20 ≤ s) ∧
     (qualificationLevel (.num s) = "high" ↔ 15 ≤ s ∧ s < 20) ∧
     (qualificationLevel (.num s) = "medium" ↔ 10 ≤ s ∧ s < 15) ∧
     (qualificationLevel (.num s) = "low" ↔ 6 ≤ s ∧ s < 10) ∧
     (qualificationLevel (.num s) = "minimal" ↔ s < 6)) ∧
    (qualificationLevel (.num 25) = "critical" ∧ qualificationLevel (.num 19) = "high" ∧
     qualificationLevel (.num 15) = "high" ∧ qualificationLevel (.num 14) = "medium" ∧
     qualificationLevel (.num 6) = "low" ∧ qualificationLevel (.num 5) = "minimal") := by
  refine ⟨rfl, ?_, by decide⟩
  intro s
  unfold qualificationLevel
  simp only [jsGe_num, decide_eq_true_eq]
  split_ifs <;> simp <;> omega

/-! ## The end-to-end scenario (C4) -/

/-- C4: in the end-to-end scenario the five slots carry the weights 5, 4, 5, 5, 5
(q4 with sar 800000), the contact is recorded, the total is 24, and the payload of
`submitSurvey` carries score 24 and qualificationLevel `critical`. -/
theorem scenario_score_24 (k : Nat → Option String) (t : Nat → String)
    (timestamp : String) :
    slotScore (scenario k t) 1 = .num 5 ∧ slotScore (scenario k t) 2 = .num 4 ∧
    slotScore (scenario k t) 3 = .num 5 ∧ slotScore (scenario k t) 4 = .num 5 ∧
    slotScore (scenario k t) 5 = .num 5 ∧
    ((scenario k t).slots 4).bind (fun a => a.sar) = some (.num 800000) ∧
    (scenario k t).contact =
      some { name := "A", email := "a@b.com", organization := "Org",
             phone := "", location := "", jobTitle := "" } ∧
    (scenario k t).score = .num 24 ∧
    (submitSurvey (scenario k t) timestamp).score = .num 24 ∧
    (submitSurvey (scenario k t) timestamp).qualificationLevel = "critical" :=
  ⟨rfl, rfl, rfl, rfl, rfl, rfl, rfl, rfl, rfl, rfl⟩

/-! ## Monotonicity of the tier (C18) -/

/-- C18: the qualification level is monotone in the score for the order
minimal < low < medium < high < critical: a lower or equal score never gets a
higher tier. -/
theorem qualificationLevel_mono (s1 s2 : Int) (h : s1 ≤ s2) :
    levelRank (qualificationLevel (.num s1)) ≤ levelRank (qualificationLevel (.num s2)) := by
  unfold qualificationLevel
  simp only [jsGe_num, decide_eq_true_eq]
  split_ifs <;> simp [levelRank] <;> omega

/-- Witness of C18: 14 is `medium`, 15 is `high`. -/
theorem qualificationLevel_mono_witness :
    levelRank (qualificationLevel (.num 14)) = 2 ∧
    levelRank (qualificationLevel (.num 15)) = 3 ∧
    levelRank (qualificationLevel (.num 14)) ≤ levelRank (qualificationLevel (.num 15)) :=
  ⟨by decide, by decide, qualificationLevel_mono 14 15 (by decide)⟩

/-! ## The three copies of the ladder (C23) -/

/-- C23: for every score (a number, or any other value the variable may hold) the
three ladders of the client give the same tier: the `priority` of `showResults`, the
lower-cased `Priority Level` of the e-mail body and the `qualificationLevel` of the
API payload. -/
theorem ladders_agree (score : JsVal) :
    showResults_priority score = qualificationLevel score ∧
    toLowerCase (submitSurvey_priorityLevel score) = qualificationLevel score ∧
    toLowerCase (submitSurvey_priorityLevel score) = showResults_priority score := by
  unfold showResults_priority submitSurvey_priorityLevel qualificationLevel
  split_ifs <;> exact ⟨rfl, by decide, by decide⟩

/-! ## Recommendations (C19, C20) -/

theorem roleGroup_eq (role : Option String) :
    roleGroup role =
      (if role = some "rcm-director" ∨ role = some "practice-admin" then
        ["Strategic RCM transformation with executive dashboard"]
      else if role = some "billing-manager" then
        ["Automated billing and denial management solutions"]
      else if role = some "it-manager" then
        ["System integration and API-based workflow automation"]
      else []) := by
  unfold roleGroup
  split <;> simp_all

theorem challengeGroup_eq (challenge : Option String) :
    challengeGroup challenge =
      (if challenge = some "nphies-compliance" then
        ["NPHIES-compliant automated submission and tracking"]
      else if challenge = some "staffing-shortage" then
        ["AI-powered staff augmentation and training programs"]
      else if challenge = some "manual-processes" then
        ["End-to-end process automation with RPA"]
      else []) := by
  unfold challengeGroup
  split <;> simp_all

theorem impactGroup_eq (impact : Option String) :
    impactGroup impact =
      (if impact = some "critical-impact" ∨ impact = some "high-impact" then
        ["Priority implementation with immediate ROI focus"]
      else []) := by
  unfold impactGroup
  split <;> simp_all

theorem roleGroup_cases (role : Option String) :
    roleGroup role = [] ∨
    roleGroup role = ["Strategic RCM transformation with executive dashboard"] ∨
    roleGroup role = ["Automated billing and denial management solutions"] ∨
    roleGroup role = ["System integration and API-based workflow automation"] := by
  unfold roleGroup
  split <;> simp

theorem challengeGroup_cases (challenge : Option String) :
    challengeGroup challenge = [] ∨
    challengeGroup challenge = ["NPHIES-compliant automated submission and tracking"] ∨
    challengeGroup challenge = ["AI-powered staff augmentation and training programs"] ∨
    challengeGroup challenge = ["End-to-end process automation with RPA"] := by
  unfold challengeGroup
  split <;> simp

theorem impactGroup_cases (impact : Option String) :
    impactGroup impact = [] ∨
    impactGroup impact = ["Priority implementation with immediate ROI focus"] := by
  unfold impactGroup
  split <;> simp

theorem generateAIRecommendations_eq (st : State) :
    generateAIRecommendations st =
      roleGroup (slotValue st 1) ++ challengeGroup (slotValue st 3) ++
        impactGroup (slotValue st 4) := by
  rw [roleGroup_eq, challengeGroup_eq, impactGroup_eq]
  rfl

/-- C19: the list `generateAIRecommendations` returns is the role group followed by
the challenge group followed by the impact group of `answers.q1?.value`,
`answers.q3?.value` and `answers.q4?.value`; each group is empty or one fixed string;
a missing or unrecognized value gives the empty group; so the list has at most three
strings and no string twice. -/
theorem generateAIRecommendations_groups (st : State) :
    generateAIRecommendations st =
      roleGroup (slotValue st 1) ++ challengeGroup (slotValue st 3) ++
        impactGroup (slotValue st 4) ∧
    (∀ role, (roleGroup role).length ≤ 1 ∧
      (role ∉ [some "rcm-director", some "practice-admin", some "billing-manager",
          some "it-manager"] → roleGroup role = [])) ∧
    (∀ challenge, (challengeGroup challenge).length ≤ 1 ∧
      (challenge ∉ [some "nphies-compliance", some "staffing-shortage",
          some "manual-processes"] → challengeGroup challenge = [])) ∧
    (∀ impact, (impactGroup impact).length ≤ 1 ∧
      (impact ∉ [some "critical-impact", some "high-impact"] → impactGroup impact = [])) ∧
    (roleGroup (some "rcm-director") = roleGroup (some "practice-admin") ∧
      impactGroup (some "critical-impact") = impactGroup (some "high-impact")) ∧
    (generateAIRecommendations st).length ≤ 3 ∧
    (generateAIRecommendations st).Nodup := by
  refine ⟨generateAIRecommendations_eq st, ?_, ?_, ?_, ⟨rfl, rfl⟩, ?_, ?_⟩
  · intro role
    constructor
    · rcases roleGroup_cases role with h | h | h | h <;> simp [h]
    · intro hr
      rw [roleGroup_eq]
      simp_all
  · intro challenge
    constructor
    · rcases challengeGroup_cases challenge with h | h | h | h <;> simp [h]
    · intro hr
      rw [challengeGroup_eq]
      simp_all
  · intro impact
    constructor
    · rcases impactGroup_cases impact with h | h <;> simp [h]
    · intro hr
      rw [impactGroup_eq]
      simp_all
  · rw [generateAIRecommendations_eq]
    rcases roleGroup_cases (slotValue st 1) with h1 | h1 | h1 | h1 <;>
    rcases challengeGroup_cases (slotValue st 3) with h3 | h3 | h3 | h3 <;>
    rcases impactGroup_cases (slotValue st 4) with h4 | h4 <;>
    simp [h1, h3, h4]
  · rw [generateAIRecommendations_eq]
    rcases roleGroup_cases (slotValue st 1) with h1 | h1 | h1 | h1 <;>
    rcases challengeGroup_cases (slotValue st 3) with h3 | h3 | h3 | h3 <;>
    rcases impactGroup_cases (slotValue st 4) with h4 | h4 <;>
    rw [h1, h3, h4] <;> decide

/-- Witness of C19: the scenario gets the three strings in the order role, challenge,
impact; the role `other-healthcare` and a missing role contribute nothing. -/
theorem generateAIRecommendations_groups_witness :
    generateAIRecommendations sparseState =
      roleGroup (slotValue sparseState 1) ++ challengeGroup (slotValue sparseState 3) ++
        impactGroup (slotValue sparseState 4) ∧
    generateAIRecommendations sparseState =
      ["Strategic RCM transformation with executive dashboard",
       "NPHIES-compliant automated submission and tracking",
       "Priority implementation with immediate ROI focus"] ∧
    roleGroup (some "other-healthcare") = [] ∧ roleGroup none = [] :=
  ⟨(generateAIRecommendations_groups sparseState).1, by decide,
   ((generateAIRecommendations_groups sparseState).2.1 (some "other-healthcare")).2
     (by decide),
   ((generateAIRecommendations_groups sparseState).2.1 none).2 (by decide)⟩

/-- C20: the recommendation list is a function of the values of q1, q3 and q4 only:
two states with the same three values get the same list, whatever else they hold
(q2, q5, contact, titles, qualifiers, sar, stored scores, running total, step). -/
theorem generateAIRecommendations_depends_on_q1_q3_q4 (st1 st2 : State)
    (h1 : slotValue st1 1 = slotValue st2 1)
    (h3 : slotValue st1 3 = slotValue st2 3)
    (h4 : slotValue st1 4 = slotValue st2 4) :
    generateAIRecommendations st1 = generateAIRecommendations st2 := by
  rw [generateAIRecommendations_eq, generateAIRecommendations_eq, h1, h3, h4]

/-- Witness of C20: the end-to-end scenario and a state with only q1, q3 and q4
answered (other titles and qualifiers, no contact, another total) get the same three
recommendations. -/
theorem generateAIRecommendations_depends_on_q1_q3_q4_witness :
    (scenario (fun _ => some "high") (fun _ => "title")).score ≠ sparseState.score ∧
    (scenario (fun _ => some "high") (fun _ => "title")).slots 2 ≠ sparseState.slots 2 ∧
    generateAIRecommendations (scenario (fun _ => some "high") (fun _ => "title")) =
      generateAIRecommendations sparseState ∧
    generateAIRecommendations sparseState =
      ["Strategic RCM transformation with executive dashboard",
       "NPHIES-compliant automated submission and tracking",
       "Priority implementation with immediate ROI focus"] :=
  ⟨by decide, by decide,
   generateAIRecommendations_depends_on_q1_q3_q4
     (scenario (fun _ => some "high") (fun _ => "title")) sparseState
     (by decide) (by decide) (by decide),
   by decide⟩

/-! ## The inherited members in the scoring (C2, C3, C16, C17): the code at the failing inputs -/

/-- C2 (the code at the failing input): a click on an option of step 1 whose
`data-value` is `constructor` stores the function `Object` as `aiScore` and turns the
running score into a string, no number at all; selecting `rcm-director` on the same
step afterwards leaves the score `NaN` while the stored weights sum to 5. -/
theorem score_not_sum_at_constructor :
    slotScore (selectAll State.initial [(1, constructorBtn)]) 1 = .fn "Object" ∧
    (selectAll State.initial [(1, constructorBtn)]).score =
      .str "0function Object() \x7b [native code] \x7d" ∧
    (selectAll State.initial [(1, constructorBtn), (1, directorBtn)]).score = .nan ∧
    slotScore (selectAll State.initial [(1, constructorBtn), (1, directorBtn)]) 1 = .num 5 ∧
    slotScore (selectAll State.initial [(1, constructorBtn), (1, directorBtn)]) 2 = .num 0 ∧
    slotScore (selectAll State.initial [(1, constructorBtn), (1, directorBtn)]) 3 = .num 0 ∧
    slotScore (selectAll State.initial [(1, constructorBtn), (1, directorBtn)]) 4 = .num 0 ∧
    slotScore (selectAll State.initial [(1, constructorBtn), (1, directorBtn)]) 5 = .num 0 := by
  decide

/-- C3 (the code at the failing input): on the initial state, selecting the option
`constructor` and then `rcm-director` on step 1 leaves the score `NaN`, whereas
selecting `rcm-director` alone leaves 5; the stored answer is the same in both. -/
theorem replace_fails_at_constructor :
    (selectAt (selectAt State.initial 1 constructorBtn) 1 directorBtn).score = .nan ∧
    (selectAt State.initial 1 directorBtn).score = .num 5 ∧
    (selectAt (selectAt State.initial 1 constructorBtn) 1 directorBtn).score ≠
      (selectAt State.initial 1 directorBtn).score ∧
    (selectAt (selectAt State.initial 1 constructorBtn) 1 directorBtn).slots 1 =
      (selectAt State.initial 1 directorBtn).slots 1 := by
  decide

/-- C16 (the code at the failing input): `__proto__` and `constructor` are no keys of
the weight tables, yet on step 2 the value `__proto__` gets the object
`Object.prototype` as weight and on step 1 the value `constructor` the function
`Object`, whatever the qualifier: not the fallback 3, 2 or 1. -/
theorem fallback_missed_at_inherited_member :
    aiScoreOf 2 (some "__proto__") (some "high") = .objectPrototype ∧
    aiScoreOf 2 (some "__proto__") (some "high") ≠ .num 3 ∧
    aiScoreOf 1 (some "constructor") (some "medium") = .fn "Object" ∧
    aiScoreOf 1 (some "constructor") (some "medium") ≠ .num 2 ∧
    aiScoreOf 1 (some "constructor") (some "low") = .fn "Object" ∧
    aiScoreOf 1 (some "constructor") (some "low") ≠ .num 1 := by
  decide

/-- C17 (the code at the failing input): on step 1 the value `constructor` gets a
function as weight, and with the four top options on steps 2 to 5 the total is the
string `0function Object() { [native code] }5555`, which no ladder reads as a number:
the qualification level is `minimal`. -/
theorem weight_not_number_at_constructor :
    aiScoreOf 1 (some "constructor") (some "high") = .fn "Object" ∧
    (selectAll State.initial ((1, constructorBtn) :: maxSelections.tail)).score =
      .str "0function Object() \x7b [native code] \x7d5555" ∧
    qualificationLevel
      (selectAll State.initial ((1, constructorBtn) :: maxSelections.tail)).score =
      "minimal" ∧
    (selectAll State.initial maxSelections).score = .num 25 := by
  decide

/-! ## The scoring away from the inherited members -/

theorem aiScoringMatrix_role_cases (k : String) :
    aiScoringMatrix_role k = objectPrototypeMember k ∨
      ∃ w : Int, aiScoringMatrix_role k = some (.num w) ∧ 1 ≤ w ∧ w ≤ 5 := by
  unfold aiScoringMatrix_role
  split <;> simp

theorem aiScoringMatrix_organizationSize_cases (k : String) :
    aiScoringMatrix_organizationSize k = objectPrototypeMember k ∨
      ∃ w : Int, aiScoringMatrix_organizationSize k = some (.num w) ∧ 1 ≤ w ∧ w ≤ 5 := by
  unfold aiScoringMatrix_organizationSize
  split <;> simp

theorem aiScoringMatrix_challenge_cases (k : String) :
    aiScoringMatrix_challenge k = objectPrototypeMember k ∨
      ∃ w : Int, aiScoringMatrix_challenge k = some (.num w) ∧ 1 ≤ w ∧ w ≤ 5 := by
  unfold aiScoringMatrix_challenge
  split <;> simp

theorem aiScoringMatrix_financialImpact_cases (k : String) :
    aiScoringMatrix_financialImpact k = objectPrototypeMember k ∨
      ∃ w : Int, aiScoringMatrix_financialImpact k = some (.num w) ∧ 1 ≤ w ∧ w ≤ 5 := by
  unfold aiScoringMatrix_financialImpact
  split <;> simp

theorem aiScoringMatrix_aiReadiness_cases (k : String) :
    aiScoringMatrix_aiReadiness k = objectPrototypeMember k ∨
      ∃ w : Int, aiScoringMatrix_aiReadiness k = some (.num w) ∧ 1 ≤ w ∧ w ≤ 5 := by
  unfold aiScoringMatrix_aiReadiness
  split <;> simp

theorem getD_of_table {o : Option JsVal} {k : String}
    (h : o = objectPrototypeMember k ∨ ∃ w : Int, o = some (.num w) ∧ 1 ≤ w ∧ w ≤ 5)
    (hk : objectPrototypeMember k = none) (ht : truthy o = true) :
    ∃ w : Int, o.getD (.num 0) = .num w ∧ 1 ≤ w ∧ w ≤ 5 := by
  rcases h with h | ⟨w, h, h1, h5⟩
  · rw [h, hk] at ht
    simp [truthy] at ht
  · subst h
    exact ⟨w, rfl, h1, h5⟩

/-- For a value that names no inherited member, the computed `aiScore` is a number
between 1 and 5. -/
theorem aiScoreOf_of_not_inherited (n : Nat) (value qualify : Option String)
    (hv : objectPrototypeMember (propertyKey value) = none) :
    ∃ w : Int, aiScoreOf n value qualify = .num w ∧ 1 ≤ w ∧ w ≤ 5 := by
  unfold aiScoreOf
  split_ifs with h1 h2 h3 h4 h5 h6 h7
  · exact getD_of_table (aiScoringMatrix_role_cases _) hv h1.2
  · exact getD_of_table (aiScoringMatrix_organizationSize_cases _) hv h2.2
  · exact getD_of_table (aiScoringMatrix_challenge_cases _) hv h3.2
  · exact getD_of_table (aiScoringMatrix_financialImpact_cases _) hv h4.2
  · exact getD_of_table (aiScoringMatrix_aiReadiness_cases _) hv h5.2
  · exact ⟨3, rfl, by decide, by decide⟩
  · exact ⟨2, rfl, by decide, by decide⟩
  · exact ⟨1, rfl, by decide, by decide⟩

/-- For a value on which the property access of the step yields nothing (no own
entry, no inherited member), the computed `aiScore` is the fallback of the
qualifier. -/
theorem aiScoreOf_fallback (n : Nat) (value qualify : Option String)
    (hv : slotTable n (propertyKey value) = none) :
    aiScoreOf n value qualify =
      (if qualify = some "high" then .num 3 else if qualify = some "medium" then .num 2
       else .num 1) := by
  unfold aiScoreOf
  rcases n with _ | _ | _ | _ | _ | _ | n <;>
    simp [slotTable] at hv ⊢ <;> simp [hv, truthy]

theorem ScoreInv_initial : ScoreInv State.initial := by
  constructor
  · simp [State.initial, slotWeight]
  · intro n a h
    simp [State.initial] at h

theorem slotWeight_bounds (st : State) (h : ScoreInv st) (n : Nat) :
    0 ≤ slotWeight st n ∧ slotWeight st n ≤ 5 := by
  unfold slotWeight
  cases hs : st.slots n with
  | none => simp
  | some a =>
    obtain ⟨_, _, w, hw, h1, h5⟩ := h.2 n a hs
    simp only [hw]
    omega

theorem selectAt_slotWeight (st : State) (n m : Nat) (btn : Btn) (w : Int)
    (hw : aiScoreOf n btn.value btn.qualify = .num w) :
    slotWeight (selectAt st n btn) m = if m = n then w else slotWeight st m := by
  by_cases h : m = n
  · subst h
    simp [selectAt, selectOption, slotWeight, hw]
  · simp [selectAt, selectOption, slotWeight, Function.update_noteq h, h]

theorem selectAt_score_of_inv (st : State) (n : Nat) (btn : Btn) (w : Int)
    (h : ScoreInv st) (hw : aiScoreOf n btn.value btn.qualify = .num w)
    (hw1 : 1 ≤ w) (hw5 : w ≤ 5) :
    (selectAt st n btn).score =
      .num (slotWeight st 1 + slotWeight st 2 + slotWeight st 3 + slotWeight st 4 +
        slotWeight st 5 - slotWeight st n + w) := by
  have b1 := slotWeight_bounds st h 1
  have b2 := slotWeight_bounds st h 2
  have b3 := slotWeight_bounds st h 3
  have b4 := slotWeight_bounds st h 4
  have b5 := slotWeight_bounds st h 5
  have bn := slotWeight_bounds st h n
  simp only [selectAt, selectOption, hw]
  cases hs : st.slots n with
  | none =>
    have hz : slotWeight st n = 0 := by simp [slotWeight, hs]
    simp only [h.1, jsAdd_num]
    rw [roundDouble_of_small _ (by omega) (by omega), hz]
    simp
  | some prev =>
    obtain ⟨_, _, p, hp, hp1, hp5⟩ := h.2 n prev hs
    have hz : slotWeight st n = p := by simp [slotWeight, hs, hp]
    have ht : (JsVal.num p).truthy = true := by
      simp only [JsVal.truthy, bne_iff_ne, ne_eq]
      omega
    simp only [hp, ht, if_true, h.1, jsSub_num, jsAdd_num]
    rw [roundDouble_of_small (_ - p) (by omega) (by omega),
      roundDouble_of_small _ (by omega) (by omega), hz]

theorem ScoreInv_selectAt (st : State) (n : Nat) (btn : Btn)
    (hn : 1 ≤ n ∧ n ≤ 5) (hv : objectPrototypeMember (propertyKey btn.value) = none)
    (h : ScoreInv st) : ScoreInv (selectAt st n btn) := by
  obtain ⟨w, hw, hw1, hw5⟩ := aiScoreOf_of_not_inherited n btn.value btn.qualify hv
  constructor
  · rw [selectAt_score_of_inv st n btn w h hw hw1 hw5]
    simp only [selectAt_slotWeight st n _ btn w hw]
    obtain ⟨h1, h5⟩ := hn
    interval_cases n <;> simp <;> omega
  · intro m a hm
    by_cases hmn : m = n
    · subst hmn
      simp [selectAt, selectOption] at hm
      subst hm
      exact ⟨hn, rfl, w, hw, hw1, hw5⟩
    · simp [selectAt, selectOption, Function.update_noteq hmn] at hm
      exact h.2 m a hm

theorem ScoreInv_selectAll (sels : List (Nat × Btn)) (st : State)
    (h : ∀ p ∈ sels, (1 ≤ p.1 ∧ p.1 ≤ 5) ∧
      objectPrototypeMember (propertyKey p.2.value) = none)
    (hst : ScoreInv st) : ScoreInv (selectAll st sels) := by
  induction sels generalizing st with
  | nil => simpa [selectAll] using hst
  | cons p ps ih =>
    have hp := h p (List.mem_cons_self p ps)
    have hps : ∀ q ∈ ps, (1 ≤ q.1 ∧ q.1 ≤ 5) ∧
        objectPrototypeMember (propertyKey q.2.value) = none :=
      fun q hq => h q (List.mem_cons_of_mem p hq)
    simpa [selectAll] using
      ih (selectAt st p.1 p.2) hps (ScoreInv_selectAt st p.1 p.2 hp.1 hp.2 hst)

/-- Away from the inherited members the score is the sum: after any sequence of
selections on slots q1..q5 of options whose value names no inherited member, the
running score is the number that is the sum of the stored weights, each stored weight
a number between 1 and 5, so that the total is between 0 and 25. -/
theorem selectAll_score_eq_sum_of_not_inherited (sels : List (Nat × Btn))
    (h : ∀ p ∈ sels, (1 ≤ p.1 ∧ p.1 ≤ 5) ∧
      objectPrototypeMember (propertyKey p.2.value) = none) :
    ScoreInv (selectAll State.initial sels) ∧
    ∃ total : Int, (selectAll State.initial sels).score = .num total ∧
      0 ≤ total ∧ total ≤ 25 := by
  have hinv := ScoreInv_selectAll sels State.initial h ScoreInv_initial
  have b1 := slotWeight_bounds _ hinv 1
  have b2 := slotWeight_bounds _ hinv 2
  have b3 := slotWeight_bounds _ hinv 3
  have b4 := slotWeight_bounds _ hinv 4
  have b5 := slotWeight_bounds _ hinv 5
  exact ⟨hinv, _, hinv.1, by omega, by omega⟩

/-- Away from the inherited members a selection replaces the earlier one: on a state
that satisfies the invariant, selecting `a` and then `b` on a slot gives the state
that selecting `b` alone gives. -/
theorem selectAt_replaces_of_not_inherited (st : State) (n : Nat) (a b : Btn)
    (hst : ScoreInv st) (hn : 1 ≤ n ∧ n ≤ 5)
    (ha : objectPrototypeMember (propertyKey a.value) = none)
    (hb : objectPrototypeMember (propertyKey b.value) = none) :
    (selectAt (selectAt st n a) n b).score = (selectAt st n b).score ∧
    (selectAt (selectAt st n a) n b).slots = (selectAt st n b).slots := by
  obtain ⟨wa, hwa, ha1, ha5⟩ := aiScoreOf_of_not_inherited n a.value a.qualify ha
  obtain ⟨wb, hwb, hb1, hb5⟩ := aiScoreOf_of_not_inherited n b.value b.qualify hb
  have hinv := ScoreInv_selectAt st n a hn ha hst
  constructor
  · rw [selectAt_score_of_inv _ n b wb hinv hwb hb1 hb5,
      selectAt_score_of_inv st n b wb hst hwb hb1 hb5]
    simp only [selectAt_slotWeight st n _ a wa hwa]
    obtain ⟨h1, h5⟩ := hn
    interval_cases n <;> simp <;> omega
  · simp [selectAt, selectOption, Function.update_idem]

end App

namespace Worker

/-! ## Validation and the handler: helper lemmas -/

theorem zNumber_eq_some {j : Option Json} {n : Int} (h : zNumber j = some n) :
    j = some (.num n) := by
  unfold zNumber at h
  split at h
  · simp at h; subst h; rfl
  · simp at h

/-- The validated `score` is the `score` member of the request body. -/
theorem parse_score {isEmail : String → Bool} {body : Json} {v : SurveyResponse}
    (h : SurveyResponseSchema_parse isEmail body = some v) :
    body.get "score" = some (.num v.score) := by
  unfold SurveyResponseSchema_parse at h
  split at h
  · rename_i members
    split at h
    · rename_i hs _ _ _ _
      simp at h
      subst h
      simpa [Json.get] using zNumber_eq_some hs
    · simp at h
  · simp at h

theorem generateAIInsights_no_surveyInsert (env : Env) (v : SurveyResponse)
    (row : SurveyRow) : Effect.surveyInsert row ∉ (generateAIInsights env v).2 := by
  unfold generateAIInsights
  split_ifs
  · simp
  · split <;> simp

/-! ## The score the server stores (C5) -/

/-- C5 (counterexample): a body with `score` 99 whose answers compute to 12 passes
validation and is answered with success; the row inserted into `survey_responses`
has `total_score` 99 and the response carries score 99, not the recomputed 12. -/
theorem submit_keeps_client_score_99 :
    SurveyResponseSchema_parse containsAt (bodyWithScore 99 "critical") =
      some (dataWithScore 99 "critical") ∧
    specRecomputedScore (dataWithScore 99 "critical") = 12 ∧
    (submitHandler containsAt (mkEnv none none none none (.ok none))
        (some (bodyWithScore 99 "critical"))).1 =
      { status := 200
        body := .submitted "uuid-0" "critical" 99 ⟨[], [], []⟩ "2025-01-01T00:00:00.000Z" } ∧
    (submitHandler containsAt (mkEnv none none none none (.ok none))
        (some (bodyWithScore 99 "critical"))).2.head? =
      some (.surveyInsert
        (surveyRow "uuid-0" "2025-01-01T00:00:00.000Z" (dataWithScore 99 "critical"))) ∧
    (surveyRow "uuid-0" "2025-01-01T00:00:00.000Z" (dataWithScore 99 "critical")).total_score
      = 99 ∧
    (surveyRow "uuid-0" "2025-01-01T00:00:00.000Z" (dataWithScore 99 "critical")).total_score
      ≠ specRecomputedScore (dataWithScore 99 "critical") := by
  decide

/-- C5 (amended): the server keeps the client-submitted total. For every body that
passes validation, the first call of the handler is the insert of a row whose
`total_score` is the `score` member of the body, every row it inserts has that
`total_score`, and a success response returns that same score; the per-question
values are not consulted. -/
theorem submit_persists_submitted_score (isEmail : String → Bool) (env : Env)
    (body : Json) (v : SurveyResponse)
    (h : SurveyResponseSchema_parse isEmail body = some v) :
    body.get "score" = some (.num v.score) ∧
    (submitHandler isEmail env (some body)).2.head? =
      some (.surveyInsert (surveyRow (env.randomUUID 0) (env.now 0) v)) ∧
    (surveyRow (env.randomUUID 0) (env.now 0) v).total_score = v.score ∧
    (∀ row, Effect.surveyInsert row ∈ (submitHandler isEmail env (some body)).2 →
      row.total_score = v.score) ∧
    (∀ id level score insights timestamp,
      (submitHandler isEmail env (some body)).1.body =
        .submitted id level score insights timestamp → score = v.score) := by
  refine ⟨parse_score h, ?_, rfl, ?_, ?_⟩
  · simp only [submitHandler, h]
    split
    · simp
    · split
      · simp
      · split <;> simp
  · intro row
    have hai := generateAIInsights_no_surveyInsert env v row
    simp only [submitHandler, h]
    split
    · simp
      intro hr; subst hr; rfl
    · split
      · simp
        intro hr; subst hr; rfl
      · split
        · simp [hai]
          intro hr; subst hr; rfl
        · simp [hai]
          intro hr; subst hr; rfl
  · intro id level score insights timestamp
    simp only [submitHandler, h]
    split
    · simp [catchResponse]
    · split
      · simp [catchResponse]
      · split
        · simp [catchResponse]
        · simp
          intro _ _ hs _ _
          exact hs.symm

/-- Witness of C5 (amended): the body with `score` 99. -/
theorem submit_persists_submitted_score_witness :
    (bodyWithScore 99 "critical").get "score" = some (.num 99) ∧
    (∀ row, Effect.surveyInsert row ∈
        (submitHandler containsAt (mkEnv none none none none (.ok none))
          (some (bodyWithScore 99 "critical"))).2 → row.total_score = 99) :=
  ⟨(submit_persists_submitted_score containsAt (mkEnv none none none none (.ok none))
      (bodyWithScore 99 "critical") (dataWithScore 99 "critical") (by decide)).1,
   (submit_persists_submitted_score containsAt (mkEnv none none none none (.ok none))
      (bodyWithScore 99 "critical") (dataWithScore 99 "critical") (by decide)).2.2.2.1⟩

/-! ## Failure policy of the pipeline (C6 to C10) -/

/-- C6: when the body cannot be read or does not pass the schema, the handler
answers 400 with `success: false` and issues no call at all: no insert into
`survey_responses`, no cache put, no advisory call, no audit insert. -/
theorem submit_invalid_no_write (isEmail : String → Bool) (env : Env)
    (body : Option Json)
    (h : ∀ b, body = some b → SurveyResponseSchema_parse isEmail b = none) :
    (submitHandler isEmail env body).1.status = 400 ∧
    (submitHandler isEmail env body).1.body.success = false ∧
    (submitHandler isEmail env body).2 = [] := by
  cases body with
  | none => simp [submitHandler, catchResponse, ResponseBody.success]
  | some b => simp [submitHandler, h b rfl, catchResponse, ResponseBody.success]

/-- Witness of C6: a body without `answers.contact`, in an environment where every
collaborator would succeed. -/
theorem submit_invalid_no_write_witness :
    SurveyResponseSchema_parse containsAt bodyWithoutContact = none ∧
    (submitHandler containsAt (mkEnv (some "true") none none none (.ok (some "text")))
      (some bodyWithoutContact)).1.status = 400 ∧
    (submitHandler containsAt (mkEnv (some "true") none none none (.ok (some "text")))
      (some bodyWithoutContact)).1.body.success = false ∧
    (submitHandler containsAt (mkEnv (some "true") none none none (.ok (some "text")))
      (some bodyWithoutContact)).2 = [] :=
  ⟨by decide,
   submit_invalid_no_write containsAt (mkEnv (some "true") none none none (.ok (some "text")))
     (some bodyWithoutContact) (by intro b hb; cases hb; decide)⟩

/-- C7 (counterexample): a valid submission whose insert succeeds and whose cache put
rejects is answered with `success: false` and without an id. -/
theorem submit_cache_failure_counterexample :
    SurveyResponseSchema_parse containsAt (bodyWithScore 12 "medium") =
      some (dataWithScore 12 "medium") ∧
    (submitHandler containsAt (mkEnv none none (some "KV unavailable") none (.ok none))
      (some (bodyWithScore 12 "medium"))).1 =
      { status := 400
        body := .failed "Invalid request data" (.rejected "KV unavailable") } ∧
    (submitHandler containsAt (mkEnv none none (some "KV unavailable") none (.ok none))
      (some (bodyWithScore 12 "medium"))).1.body.success = false ∧
    (submitHandler containsAt (mkEnv none none (some "KV unavailable") none (.ok none))
      (some (bodyWithScore 12 "medium"))).1.body.responseId = none := by
  decide

/-- C7 (amended): for every submission that passes validation and whose insert
succeeds, a rejected cache put fails the request: the handler answers with
`success: false` and no id, having issued the insert and the cache put and nothing
after them (no advisory call, no audit insert). -/
theorem submit_cache_failure_fails (isEmail : String → Bool) (env : Env) (body : Json)
    (v : SurveyResponse) (message : String)
    (h : SurveyResponseSchema_parse isEmail body = some v)
    (hins : env.surveyInsertError (surveyRow (env.randomUUID 0) (env.now 0) v) = none)
    (hkv : env.kvPutError (env.randomUUID 0)
      { data := v, id := env.randomUUID 0, processedAt := env.now 0 } (86400 * 365) =
        some message) :
    (submitHandler isEmail env (some body)).1.body.success = false ∧
    (submitHandler isEmail env (some body)).1.body.responseId = none ∧
    (submitHandler isEmail env (some body)).2 =
      [.surveyInsert (surveyRow (env.randomUUID 0) (env.now 0) v),
       .kvPut (env.randomUUID 0)
         { data := v, id := env.randomUUID 0, processedAt := env.now 0 } (86400 * 365)] := by
  simp [submitHandler, h, hins, hkv, catchResponse, ResponseBody.success,
    ResponseBody.responseId]

/-- Witness of C7 (amended). -/
theorem submit_cache_failure_fails_witness :
    (submitHandler containsAt (mkEnv (some "true") none (some "KV unavailable") none (.ok none))
      (some (bodyWithScore 12 "medium"))).1.body.success = false ∧
    (submitHandler containsAt (mkEnv (some "true") none (some "KV unavailable") none (.ok none))
      (some (bodyWithScore 12 "medium"))).2.length = 2 :=
  ⟨(submit_cache_failure_fails containsAt
      (mkEnv (some "true") none (some "KV unavailable") none (.ok none))
      (bodyWithScore 12 "medium") (dataWithScore 12 "medium") "KV unavailable"
      (by decide) rfl rfl).1,
   by decide⟩

/-- C8: for every submission that passes validation, when the advisory call throws
or `ENABLE_AI_ANALYSIS` is not the string `true`, `generateAIInsights` returns an
empty insight list; with the flag off it issues no advisory call, and neither does
the handler; and, the insert, the cache put and the audit insert succeeding, the
handler answers 200 with `success: true`, the generated id and those insights. -/
theorem submit_advisory_failure_tolerated (isEmail : String → Bool) (env : Env)
    (body : Json) (v : SurveyResponse)
    (h : SurveyResponseSchema_parse isEmail body = some v)
    (hai : env.ENABLE_AI_ANALYSIS ≠ some "true" ∨ ∃ message, env.aiRun v = .error message) :
    (generateAIInsights env v).1.insights = [] ∧
    (env.ENABLE_AI_ANALYSIS ≠ some "true" →
      (generateAIInsights env v).2 = [] ∧
      ∀ d, Effect.aiRun d ∉ (submitHandler isEmail env (some body)).2) ∧
    (env.surveyInsertError (surveyRow (env.randomUUID 0) (env.now 0) v) = none →
     env.kvPutError (env.randomUUID 0)
       { data := v, id := env.randomUUID 0, processedAt := env.now 0 } (86400 * 365) = none →
     env.auditInsertError (createAuditLog_entry env 1 "survey_submit" "create"
       { responseId := env.randomUUID 0
         organization := v.answers.contact.organization
         score := v.score
         qualificationLevel := v.qualificationLevel }) = none →
     (submitHandler isEmail env (some body)).1 =
       { status := 200
         body := .submitted (env.randomUUID 0) v.qualificationLevel v.score
           (generateAIInsights env v).1 (env.now 0) } ∧
     (submitHandler isEmail env (some body)).1.body.success = true ∧
     (submitHandler isEmail env (some body)).1.body.responseId = some (env.randomUUID 0)) := by
  refine ⟨?_, ?_, ?_⟩
  · unfold generateAIInsights
    split_ifs with hflag
    · rfl
    · rcases hai with hoff | ⟨message, hthrow⟩
      · exact absurd hoff (fun hne => hflag (Or.inr hne))
      · rw [hthrow]
  · intro hoff
    have hgen : (generateAIInsights env v).2 = [] := by
      unfold generateAIInsights
      rw [if_pos (Or.inr hoff)]
    refine ⟨hgen, ?_⟩
    intro d
    simp only [submitHandler, h]
    split
    · simp
    · split
      · simp
      · split <;> simp [hgen]
  · intro hins hkv haudit
    simp [submitHandler, h, hins, hkv, haudit, ResponseBody.success, ResponseBody.responseId]

/-- Witness of C8: with the flag on and a throwing advisory call the submission is
answered with success and no insights; with the flag unset no advisory call is
issued. -/
theorem submit_advisory_failure_tolerated_witness :
    (submitHandler containsAt (mkEnv (some "true") none none none (.error "AI timeout"))
      (some (bodyWithScore 12 "medium"))).1 =
      { status := 200
        body := .submitted "uuid-0" "medium" 12 ⟨[], [], []⟩ "2025-01-01T00:00:00.000Z" } ∧
    (∀ d, Effect.aiRun d ∉
      (submitHandler containsAt (mkEnv none none none none (.ok (some "text")))
        (some (bodyWithScore 12 "medium"))).2) :=
  ⟨((submit_advisory_failure_tolerated containsAt
      (mkEnv (some "true") none none none (.error "AI timeout"))
      (bodyWithScore 12 "medium") (dataWithScore 12 "medium") (by decide)
      (Or.inr ⟨"AI timeout", rfl⟩)).2.2 rfl rfl rfl).1,
   ((submit_advisory_failure_tolerated containsAt
      (mkEnv none none none none (.ok (some "text")))
      (bodyWithScore 12 "medium") (dataWithScore 12 "medium") (by decide)
      (Or.inl (by decide))).2.1 (by decide)).2⟩

/-- C9 (the code at the failing input): a valid submission whose insert into
`survey_responses` rejects is answered by the catch block of the handler: status
400 with the error text of a validation failure, not a 500. -/
theorem submit_insert_failure_status_400 :
    SurveyResponseSchema_parse containsAt (bodyWithScore 12 "medium") =
      some (dataWithScore 12 "medium") ∧
    (submitHandler containsAt (mkEnv none (some "D1_ERROR") none none (.ok none))
      (some (bodyWithScore 12 "medium"))).1 =
      { status := 400, body := .failed "Invalid request data" (.rejected "D1_ERROR") } ∧
    (submitHandler containsAt (mkEnv none (some "D1_ERROR") none none (.ok none))
      (some (bodyWithScore 12 "medium"))).1.status =
    (submitHandler containsAt (mkEnv none none none none (.ok none))
      (some bodyWithoutContact)).1.status := by
  decide

/-- C10 (counterexample): a valid submission that is inserted and cached, and whose
audit insert rejects, is answered with `success: false`. -/
theorem submit_audit_failure_counterexample :
    SurveyResponseSchema_parse containsAt (bodyWithScore 12 "medium") =
      some (dataWithScore 12 "medium") ∧
    (submitHandler containsAt (mkEnv none none none (some "audit_log unavailable") (.ok none))
      (some (bodyWithScore 12 "medium"))).1 =
      { status := 400
        body := .failed "Invalid request data" (.rejected "audit_log unavailable") } ∧
    (submitHandler containsAt (mkEnv none none none (some "audit_log unavailable") (.ok none))
      (some (bodyWithScore 12 "medium"))).1.body.success = false := by
  decide

/-- C10 (amended): for every submission that passes validation and is inserted and
cached, a rejected audit insert fails the user-visible response: the handler
answers with `success: false` and no id, although the insert into
`survey_responses` and the cache put were issued before. -/
theorem submit_audit_failure_fails (isEmail : String → Bool) (env : Env) (body : Json)
    (v : SurveyResponse) (message : String)
    (h : SurveyResponseSchema_parse isEmail body = some v)
    (hins : env.surveyInsertError (surveyRow (env.randomUUID 0) (env.now 0) v) = none)
    (hkv : env.kvPutError (env.randomUUID 0)
      { data := v, id := env.randomUUID 0, processedAt := env.now 0 } (86400 * 365) = none)
    (haudit : env.auditInsertError (createAuditLog_entry env 1 "survey_submit" "create"
       { responseId := env.randomUUID 0
         organization := v.answers.contact.organization
         score := v.score
         qualificationLevel := v.qualificationLevel }) = some message) :
    (submitHandler isEmail env (some body)).1.body.success = false ∧
    (submitHandler isEmail env (some body)).1.body.responseId = none ∧
    Effect.surveyInsert (surveyRow (env.randomUUID 0) (env.now 0) v) ∈
      (submitHandler isEmail env (some body)).2 ∧
    Effect.kvPut (env.randomUUID 0)
      { data := v, id := env.randomUUID 0, processedAt := env.now 0 } (86400 * 365) ∈
      (submitHandler isEmail env (some body)).2 := by
  simp [submitHandler, h, hins, hkv, haudit, catchResponse, ResponseBody.success,
    ResponseBody.responseId]

/-- Witness of C10 (amended). -/
theorem submit_audit_failure_fails_witness :
    (submitHandler containsAt
      (mkEnv (some "true") none none (some "audit_log unavailable") (.ok (some "text")))
      (some (bodyWithScore 12 "medium"))).1.body.success = false ∧
    (submitHandler containsAt
      (mkEnv (some "true") none none (some "audit_log unavailable") (.ok (some "text")))
      (some (bodyWithScore 12 "medium"))).1.body.responseId = none :=
  ⟨(submit_audit_failure_fails containsAt
      (mkEnv (some "true") none none (some "audit_log unavailable") (.ok (some "text")))
      (bodyWithScore 12 "medium") (dataWithScore 12 "medium") "audit_log unavailable"
      (by decide) rfl rfl rfl).1,
   (submit_audit_failure_fails containsAt
      (mkEnv (some "true") none none (some "audit_log unavailable") (.ok (some "text")))
      (bodyWithScore 12 "medium") (dataWithScore 12 "medium") "audit_log unavailable"
      (by decide) rfl rfl rfl).2.1⟩

/-! ## The schema: helper lemmas -/

theorem lookup_replaceMember_ne (k k' : String) (h : k' ≠ k) (ms : List (String × Json))
    (v : Json) : (replaceMember ms k v).lookup k' = ms.lookup k' := by
  have hb : (k' == k) = false := by simp [h]
  induction ms with
  | nil => simp [replaceMember]
  | cons p ps ih =>
    obtain ⟨a, b⟩ := p
    simp only [replaceMember]
    split_ifs with hk
    · subst hk
      simp [List.lookup, hb]
    · simp only [List.lookup]
      rw [ih]

theorem lookup_replaceMember_same (k : String) (ms : List (String × Json)) (v c : Json)
    (hc : ms.lookup k = some c) : (replaceMember ms k v).lookup k = some v := by
  induction ms with
  | nil => simp at hc
  | cons p ps ih =>
    obtain ⟨a, b⟩ := p
    simp only [replaceMember]
    split_ifs with hk
    · subst hk
      simp [List.lookup]
    · have hb : (k == a) = false := by simp [Ne.symm hk]
      simp only [List.lookup, hb] at hc ⊢
      exact ih hc

theorem zString_eq_some {j : Option Json} {s : String} (h : zString j = some s) :
    j = some (.str s) := by
  unfold zString at h
  split at h
  · simp at h; subst h; rfl
  · simp at h

theorem zEmail_eq_some {isEmail : String → Bool} {j : Option Json} {s : String}
    (h : zEmail isEmail j = some s) : j = some (.str s) ∧ isEmail s = true := by
  unfold zEmail at h
  split at h
  · rename_i t ht
    split_ifs at h with hv
    simp at h
    subst h
    exact ⟨zString_eq_some ht, hv⟩
  · simp at h

theorem zContact_inv {isEmail : String → Bool} {j : Option Json} {c : ContactInfo}
    (h : zContact isEmail j = some c) :
    ∃ cm, j = some (.obj cm) ∧ zString (cm.lookup "name") = some c.name ∧
      zEmail isEmail (cm.lookup "email") = some c.email ∧
      zString (cm.lookup "organization") = some c.organization := by
  unfold zContact at h
  split at h
  · rename_i cm
    split at h
    · rename_i h1 h2 h3 _ _ _
      simp at h
      subst h
      exact ⟨cm, rfl, h1, h2, h3⟩
    · simp at h
  · simp at h

theorem zAnswers_inv {isEmail : String → Bool} {j : Option Json} {a : SurveyAnswers}
    (h : zAnswers isEmail j = some a) :
    ∃ am, j = some (.obj am) ∧ zContact isEmail (am.lookup "contact") = some a.contact := by
  unfold zAnswers at h
  split at h
  · rename_i am
    split at h
    · rename_i _ _ _ _ _ h6
      simp at h
      subst h
      exact ⟨am, rfl, h6⟩
    · simp at h
  · simp at h

theorem parse_inv {isEmail : String → Bool} {body : Json} {v : SurveyResponse}
    (h : SurveyResponseSchema_parse isEmail body = some v) :
    ∃ members, body = .obj members ∧
      zAnswers isEmail (members.lookup "answers") = some v.answers ∧
      zNumber (members.lookup "score") = some v.score := by
  unfold SurveyResponseSchema_parse at h
  split at h
  · rename_i members
    split at h
    · rename_i h1 h2 _ _ _ _
      simp at h
      subst h
      exact ⟨members, rfl, h1, h2⟩
    · simp at h
  · simp at h

/-- The contact members of an accepted body: `name` and `organization` are strings,
`email` is a string that passes the e-mail test, and they are the validated ones. -/
theorem parse_contact {isEmail : String → Bool} {body : Json} {v : SurveyResponse}
    (h : SurveyResponseSchema_parse isEmail body = some v) :
    body.path ["answers", "contact", "name"] = some (.str v.answers.contact.name) ∧
    body.path ["answers", "contact", "email"] = some (.str v.answers.contact.email) ∧
    isEmail v.answers.contact.email = true ∧
    body.path ["answers", "contact", "organization"] =
      some (.str v.answers.contact.organization) := by
  obtain ⟨members, rfl, ha, _⟩ := parse_inv h
  obtain ⟨am, ham, hc⟩ := zAnswers_inv ha
  obtain ⟨cm, hcm, hn, he, ho⟩ := zContact_inv hc
  have hn' := zString_eq_some hn
  have he' := zEmail_eq_some he
  have ho' := zString_eq_some ho
  simp [Json.path, Json.get, ham, hcm, hn', he'.1, he'.2, ho']

/-! ## Acceptance member by member -/

theorem zOptional_isSome_some {α : Type} (inner : Option Json → Option α) (j : Json) :
    (zOptional inner (some j)).isSome = (inner (some j)).isSome := by
  simp [zOptional]

theorem zSlot_isSome (sm : List (String × Json)) :
    (zSlot (some (.obj sm))).isSome =
      ((zString (sm.lookup "value")).isSome && (zString (sm.lookup "text")).isSome &&
        (zNumber (sm.lookup "aiScore")).isSome) := by
  simp only [zSlot]
  cases zString (sm.lookup "value") <;> cases zString (sm.lookup "text") <;>
    cases zNumber (sm.lookup "aiScore") <;> simp

theorem zSlotSar_isSome (sm : List (String × Json)) :
    (zSlotSar (some (.obj sm))).isSome =
      ((zString (sm.lookup "value")).isSome && (zString (sm.lookup "text")).isSome &&
        (zOptional zNumber (sm.lookup "sar")).isSome &&
        (zNumber (sm.lookup "aiScore")).isSome) := by
  simp only [zSlotSar]
  cases zString (sm.lookup "value") <;> cases zString (sm.lookup "text") <;>
    cases zOptional zNumber (sm.lookup "sar") <;>
    cases zNumber (sm.lookup "aiScore") <;> simp

theorem zContact_isSome (isEmail : String → Bool) (cm : List (String × Json)) :
    (zContact isEmail (some (.obj cm))).isSome =
      ((zString (cm.lookup "name")).isSome && (zEmail isEmail (cm.lookup "email")).isSome &&
        (zString (cm.lookup "organization")).isSome &&
        (zOptional zString (cm.lookup "phone")).isSome &&
        (zOptional zString (cm.lookup "location")).isSome &&
        (zOptional zString (cm.lookup "jobTitle")).isSome) := by
  simp only [zContact]
  cases zString (cm.lookup "name") <;> cases zEmail isEmail (cm.lookup "email") <;>
    cases zString (cm.lookup "organization") <;>
    cases zOptional zString (cm.lookup "phone") <;>
    cases zOptional zString (cm.lookup "location") <;>
    cases zOptional zString (cm.lookup "jobTitle") <;> simp

theorem zAnswers_isSome (isEmail : String → Bool) (am : List (String × Json)) :
    (zAnswers isEmail (some (.obj am))).isSome =
      ((zOptional zSlot (am.lookup "q1")).isSome && (zOptional zSlot (am.lookup "q2")).isSome &&
        (zOptional zSlot (am.lookup "q3")).isSome &&
        (zOptional zSlotSar (am.lookup "q4")).isSome &&
        (zOptional zSlot (am.lookup "q5")).isSome &&
        (zContact isEmail (am.lookup "contact")).isSome) := by
  simp only [zAnswers]
  cases zOptional zSlot (am.lookup "q1") <;> cases zOptional zSlot (am.lookup "q2") <;>
    cases zOptional zSlot (am.lookup "q3") <;>
    cases zOptional zSlotSar (am.lookup "q4") <;>
    cases zOptional zSlot (am.lookup "q5") <;>
    cases zContact isEmail (am.lookup "contact") <;> simp

theorem parse_isSome (isEmail : String → Bool) (members : List (String × Json)) :
    (SurveyResponseSchema_parse isEmail (.obj members)).isSome =
      ((zAnswers isEmail (members.lookup "answers")).isSome &&
        (zNumber (members.lookup "score")).isSome &&
        (zStringArray (members.lookup "aiRecommendations")).isSome &&
        (zLevel (members.lookup "qualificationLevel")).isSome &&
        (zString (members.lookup "timestamp")).isSome &&
        (zVersion (members.lookup "version")).isSome) := by
  simp only [SurveyResponseSchema_parse]
  cases zAnswers isEmail (members.lookup "answers") <;>
    cases zNumber (members.lookup "score") <;>
    cases zStringArray (members.lookup "aiRecommendations") <;>
    cases zLevel (members.lookup "qualificationLevel") <;>
    cases zString (members.lookup "timestamp") <;>
    cases zVersion (members.lookup "version") <;> simp

theorem path_cons {k : String} {ks : List String} {j x : Json}
    (h : Json.path (k :: ks) j = some x) :
    ∃ members child, j = .obj members ∧ members.lookup k = some child ∧
      Json.path ks child = some x := by
  cases j with
  | obj members =>
    simp only [Json.path, Json.get] at h
    cases hc : members.lookup k with
    | none => simp [hc] at h
    | some child =>
      simp only [hc] at h
      exact ⟨members, child, rfl, hc, h⟩
  | null => simp [Json.path, Json.get] at h
  | bool b => simp [Json.path, Json.get] at h
  | num n => simp [Json.path, Json.get] at h
  | str s => simp [Json.path, Json.get] at h
  | arr xs => simp [Json.path, Json.get] at h

theorem path_three {a b c : String} {j x : Json}
    (h : Json.path [a, b, c] j = some x) :
    ∃ m1 m2 m3, j = .obj m1 ∧ m1.lookup a = some (.obj m2) ∧
      m2.lookup b = some (.obj m3) ∧ m3.lookup c = some x := by
  obtain ⟨m1, c1, rfl, h1, h⟩ := path_cons h
  obtain ⟨m2, c2, rfl, h2, h⟩ := path_cons h
  obtain ⟨m3, c3, rfl, h3, h⟩ := path_cons h
  simp only [Json.path, Option.some.injEq] at h
  subst h
  exact ⟨m1, m2, m3, rfl, h1, h2, h3⟩

/-! ## What the schema asks of the contact and of the score (C11 to C14) -/

/-- C11: validation rejects every body whose `answers.contact` has no `email`
member, and every body whose `email` member is not a string that passes the e-mail
test of the schema; the test accepting only strings with an `@`, a string without
`@` is rejected. -/
theorem parse_rejects_bad_email (isEmail : String → Bool) (body : Json) :
    (body.path ["answers", "contact", "email"] = none →
      SurveyResponseSchema_parse isEmail body = none) ∧
    (∀ j, body.path ["answers", "contact", "email"] = some j →
      (∀ s, j = .str s → isEmail s = false) →
      SurveyResponseSchema_parse isEmail body = none) ∧
    ((∀ s, isEmail s = true → '@' ∈ s.data) →
      ∀ s, body.path ["answers", "contact", "email"] = some (.str s) → '@' ∉ s.data →
      SurveyResponseSchema_parse isEmail body = none) := by
  refine ⟨?_, ?_, ?_⟩
  · intro hnone
    cases hp : SurveyResponseSchema_parse isEmail body with
    | none => rfl
    | some v =>
      have hc := (parse_contact hp).2.1
      rw [hnone] at hc
      simp at hc
  · intro j hj hbad
    cases hp : SurveyResponseSchema_parse isEmail body with
    | none => rfl
    | some v =>
      obtain ⟨_, hc, hv, _⟩ := parse_contact hp
      rw [hj] at hc
      have hjs : j = .str v.answers.contact.email := by simpa using hc
      have := hbad _ hjs
      simp [hv] at this
  · intro hat s hs hno
    cases hp : SurveyResponseSchema_parse isEmail body with
    | none => rfl
    | some v =>
      obtain ⟨_, hc, hv, _⟩ := parse_contact hp
      rw [hs] at hc
      have hse : s = v.answers.contact.email := by simpa using hc
      subst hse
      exact absurd (hat _ hv) hno

/-- Witness of C11: a contact without `email`, and the address `ab.com`. -/
theorem parse_rejects_bad_email_witness :
    SurveyResponseSchema_parse containsAt bodyWithoutEmail = none ∧
    SurveyResponseSchema_parse containsAt (contactOnlyBody "A" "ab.com" "Org") = none :=
  ⟨(parse_rejects_bad_email containsAt bodyWithoutEmail).1 rfl,
   (parse_rejects_bad_email containsAt (contactOnlyBody "A" "ab.com" "Org")).2.2
     (by intro s hs; simpa [containsAt] using hs) "ab.com" rfl (by decide)⟩

/-- C12: a contact-only submission is accepted. For every body whose `answers` has
no q1..q5 and a contact with string `name` and `organization` and an `email` that
passes the e-mail test (optional contact members absent or strings), the other
top-level members passing their schemas, validation succeeds, with the five slots
absent and the contact as sent. -/
theorem parse_accepts_contactOnly (isEmail : String → Bool)
    (members am cm : List (String × Json)) (name email organization : String)
    (hscore : (zNumber (members.lookup "score")).isSome = true)
    (hrecs : (zStringArray (members.lookup "aiRecommendations")).isSome = true)
    (hlevel : (zLevel (members.lookup "qualificationLevel")).isSome = true)
    (htimestamp : (zString (members.lookup "timestamp")).isSome = true)
    (hversion : (zVersion (members.lookup "version")).isSome = true)
    (hanswers : members.lookup "answers" = some (.obj am))
    (hq : am.lookup "q1" = none ∧ am.lookup "q2" = none ∧ am.lookup "q3" = none ∧
      am.lookup "q4" = none ∧ am.lookup "q5" = none)
    (hcontact : am.lookup "contact" = some (.obj cm))
    (hname : cm.lookup "name" = some (.str name))
    (hemail : cm.lookup "email" = some (.str email))
    (hvalid : isEmail email = true)
    (horg : cm.lookup "organization" = some (.str organization))
    (hphone : (zOptional zString (cm.lookup "phone")).isSome = true)
    (hlocation : (zOptional zString (cm.lookup "location")).isSome = true)
    (hjobTitle : (zOptional zString (cm.lookup "jobTitle")).isSome = true) :
    ∃ v, SurveyResponseSchema_parse isEmail (.obj members) = some v ∧
      v.answers.q1 = none ∧ v.answers.q2 = none ∧ v.answers.q3 = none ∧
      v.answers.q4 = none ∧ v.answers.q5 = none ∧
      v.answers.contact.name = name ∧ v.answers.contact.email = email ∧
      v.answers.contact.organization = organization := by
  obtain ⟨score, hscore⟩ := Option.isSome_iff_exists.mp hscore
  obtain ⟨recs, hrecs⟩ := Option.isSome_iff_exists.mp hrecs
  obtain ⟨level, hlevel⟩ := Option.isSome_iff_exists.mp hlevel
  obtain ⟨timestamp, htimestamp⟩ := Option.isSome_iff_exists.mp htimestamp
  obtain ⟨version, hversion⟩ := Option.isSome_iff_exists.mp hversion
  obtain ⟨phone, hphone⟩ := Option.isSome_iff_exists.mp hphone
  obtain ⟨location, hlocation⟩ := Option.isSome_iff_exists.mp hlocation
  obtain ⟨jobTitle, hjobTitle⟩ := Option.isSome_iff_exists.mp hjobTitle
  obtain ⟨h1, h2, h3, h4, h5⟩ := hq
  have hc : zContact isEmail (some (.obj cm)) =
      some { name := name, email := email, organization := organization, phone := phone,
             location := location, jobTitle := jobTitle } := by
    simp [zContact, hname, hemail, horg, hphone, hlocation, hjobTitle, zString, zEmail, hvalid]
  have ha : zAnswers isEmail (some (.obj am)) =
      some { q1 := none, q2 := none, q3 := none, q4 := none, q5 := none,
             contact := { name := name, email := email, organization := organization,
                          phone := phone, location := location, jobTitle := jobTitle } } := by
    simp [zAnswers, h1, h2, h3, h4, h5, hcontact, hc, zOptional]
  refine ⟨{ answers :=
              { q1 := none, q2 := none, q3 := none, q4 := none, q5 := none,
                contact := { name := name, email := email, organization := organization,
                             phone := phone, location := location, jobTitle := jobTitle } },
            score := score, aiRecommendations := recs, qualificationLevel := level,
            timestamp := timestamp, version := version }, ?_,
    rfl, rfl, rfl, rfl, rfl, rfl, rfl, rfl⟩
  simp [SurveyResponseSchema_parse, hanswers, ha, hscore, hrecs, hlevel, htimestamp, hversion]

/-- Witness of C12: the contact-only body of `A`, `a@b.com`, `Org`. -/
theorem parse_accepts_contactOnly_witness :
    ∃ v, SurveyResponseSchema_parse containsAt (contactOnlyBody "A" "a@b.com" "Org") =
        some v ∧
      v.answers.q1 = none ∧ v.answers.q2 = none ∧ v.answers.q3 = none ∧
      v.answers.q4 = none ∧ v.answers.q5 = none ∧
      v.answers.contact.name = "A" ∧ v.answers.contact.email = "a@b.com" ∧
      v.answers.contact.organization = "Org" :=
  parse_accepts_contactOnly containsAt _ _ _ "A" "a@b.com" "Org"
    rfl rfl rfl rfl rfl rfl ⟨rfl, rfl, rfl, rfl, rfl⟩ rfl rfl rfl rfl rfl rfl rfl rfl

/-- C13 (counterexample): a body whose contact name is three blanks and whose
organization is the empty string (both empty after trimming) passes validation and is
stored and answered with success. -/
theorem parse_accepts_blank_name :
    App.jsTrim "   " = "" ∧ App.jsTrim "" = "" ∧
    SurveyResponseSchema_parse containsAt (contactOnlyBody "   " "a@b.com" "") =
      some (contactOnlyData "   " "a@b.com" "") ∧
    (submitHandler containsAt (mkEnv none none none none (.ok none))
      (some (contactOnlyBody "   " "a@b.com" ""))).1 =
      { status := 200
        body := .submitted "uuid-0" "minimal" 0 ⟨[], [], []⟩ "2025-01-01T00:00:00.000Z" } := by
  decide

/-- C13 (amended): validation asks of `contact.name` and `contact.organization` that
they be strings, and nothing of their content: an accepted body has both as string
members, and replacing either string by any other string (the empty or a blank one
included) leaves the outcome of validation unchanged. -/
theorem parse_contact_strings_unconstrained (isEmail : String → Bool) (body : Json) :
    (∀ v, SurveyResponseSchema_parse isEmail body = some v →
      body.path ["answers", "contact", "name"] = some (.str v.answers.contact.name) ∧
      body.path ["answers", "contact", "organization"] =
        some (.str v.answers.contact.organization)) ∧
    (∀ s s', body.path ["answers", "contact", "name"] = some (.str s) →
      (SurveyResponseSchema_parse isEmail
        (Json.replacePath ["answers", "contact", "name"] body (.str s'))).isSome =
      (SurveyResponseSchema_parse isEmail body).isSome) ∧
    (∀ s s', body.path ["answers", "contact", "organization"] = some (.str s) →
      (SurveyResponseSchema_parse isEmail
        (Json.replacePath ["answers", "contact", "organization"] body (.str s'))).isSome =
      (SurveyResponseSchema_parse isEmail body).isSome) := by
  refine ⟨?_, ?_, ?_⟩
  · intro v hv
    exact ⟨(parse_contact hv).1, (parse_contact hv).2.2.2⟩
  · intro s s' hs
    obtain ⟨m1, m2, m3, rfl, h1, h2, h3⟩ := path_three hs
    simp [Json.replacePath, h1, h2, h3, parse_isSome, zAnswers_isSome, zContact_isSome,
      lookup_replaceMember_same _ _ _ _ h1, lookup_replaceMember_same _ _ _ _ h2,
      lookup_replaceMember_same _ _ _ _ h3, lookup_replaceMember_ne, zString]
  · intro s s' hs
    obtain ⟨m1, m2, m3, rfl, h1, h2, h3⟩ := path_three hs
    simp [Json.replacePath, h1, h2, h3, parse_isSome, zAnswers_isSome, zContact_isSome,
      lookup_replaceMember_same _ _ _ _ h1, lookup_replaceMember_same _ _ _ _ h2,
      lookup_replaceMember_same _ _ _ _ h3, lookup_replaceMember_ne, zString]

/-- Witness of C13 (amended): blanking the name of the valid contact-only body keeps
it valid. -/
theorem parse_contact_strings_unconstrained_witness :
    (SurveyResponseSchema_parse containsAt
      (Json.replacePath ["answers", "contact", "name"] (contactOnlyBody "A" "a@b.com" "Org")
        (.str "  "))).isSome =
    (SurveyResponseSchema_parse containsAt (contactOnlyBody "A" "a@b.com" "Org")).isSome ∧
    (SurveyResponseSchema_parse containsAt (contactOnlyBody "A" "a@b.com" "Org")).isSome =
      true :=
  ⟨(parse_contact_strings_unconstrained containsAt (contactOnlyBody "A" "a@b.com" "Org")).2.1
     "A" "  " rfl,
   by decide⟩

/-- C14 (counterexample): a body with the negative score -5 passes validation and is
stored and answered with success and score -5. -/
theorem parse_accepts_negative_score :
    SurveyResponseSchema_parse containsAt (bodyWithScore (-5) "minimal") =
      some (dataWithScore (-5) "minimal") ∧
    (submitHandler containsAt (mkEnv none none none none (.ok none))
      (some (bodyWithScore (-5) "minimal"))).1 =
      { status := 200
        body := .submitted "uuid-0" "minimal" (-5) ⟨[], [], []⟩ "2025-01-01T00:00:00.000Z" } := by
  decide

/-- C14 (amended): validation asks of `score` that it be a number, and nothing of
its value: an accepted body has a number as `score` member, and replacing that number
by any other number (a negative one included) leaves the outcome of validation
unchanged. -/
theorem parse_score_unconstrained (isEmail : String → Bool) (body : Json) :
    (∀ v, SurveyResponseSchema_parse isEmail body = some v →
      body.get "score" = some (.num v.score)) ∧
    (∀ n m, body.get "score" = some (.num n) →
      (SurveyResponseSchema_parse isEmail
        (Json.replacePath ["score"] body (.num m))).isSome =
      (SurveyResponseSchema_parse isEmail body).isSome) := by
  refine ⟨fun v hv => parse_score hv, ?_⟩
  intro n m hn
  cases body with
  | obj members =>
    simp only [Json.get] at hn
    simp [Json.replacePath, hn, parse_isSome, lookup_replaceMember_same _ _ _ _ hn,
      lookup_replaceMember_ne, zNumber]
  | null => simp [Json.get] at hn
  | bool b => simp [Json.get] at hn
  | num k => simp [Json.get] at hn
  | str s => simp [Json.get] at hn
  | arr xs => simp [Json.get] at hn

/-- Witness of C14 (amended): the score 12 replaced by -5. -/
theorem parse_score_unconstrained_witness :
    (SurveyResponseSchema_parse containsAt
      (Json.replacePath ["score"] (bodyWithScore 12 "medium") (.num (-5)))).isSome =
    (SurveyResponseSchema_parse containsAt (bodyWithScore 12 "medium")).isSome ∧
    (SurveyResponseSchema_parse containsAt (bodyWithScore 12 "medium")).isSome = true :=
  ⟨(parse_score_unconstrained containsAt (bodyWithScore 12 "medium")).2 12 (-5) rfl,
   by decide⟩

/-! ## Unknown option values (C15) -/

/-- C15: validation does not look at which string an option value is. For every body
and every slot q1..q5 that has a string `value`, replacing that string by any other
string leaves the outcome of validation (accept or reject) unchanged. -/
theorem parse_value_irrelevant (isEmail : String → Bool) (body : Json) (q s s' : String)
    (hq : q ∈ ["q1", "q2", "q3", "q4", "q5"])
    (hs : body.path ["answers", q, "value"] = some (.str s)) :
    (SurveyResponseSchema_parse isEmail
      (Json.replacePath ["answers", q, "value"] body (.str s'))).isSome =
    (SurveyResponseSchema_parse isEmail body).isSome := by
  obtain ⟨m1, m2, m3, rfl, h1, h2, h3⟩ := path_three hs
  simp only [List.mem_cons, List.mem_singleton, List.not_mem_nil, or_false] at hq
  rcases hq with rfl | rfl | rfl | rfl | rfl <;>
    simp [Json.replacePath, h1, h2, h3, parse_isSome, zAnswers_isSome, zSlot_isSome,
      zSlotSar_isSome, zOptional_isSome_some,
      lookup_replaceMember_same _ _ _ _ h1, lookup_replaceMember_same _ _ _ _ h2,
      lookup_replaceMember_same _ _ _ _ h3, lookup_replaceMember_ne, zString]

/-- Witness of C15: the value `large` of q2 replaced by the unknown `brand-new`. -/
theorem parse_value_irrelevant_witness :
    (SurveyResponseSchema_parse containsAt
      (Json.replacePath ["answers", "q2", "value"] (bodyWithScore 12 "medium")
        (.str "brand-new"))).isSome =
    (SurveyResponseSchema_parse containsAt (bodyWithScore 12 "medium")).isSome ∧
    (SurveyResponseSchema_parse containsAt
      (Json.replacePath ["answers", "q2", "value"] (bodyWithScore 12 "medium")
        (.str "brand-new"))).isSome = true :=
  ⟨parse_value_irrelevant containsAt (bodyWithScore 12 "medium") "q2" "large" "brand-new"
     (by decide) rfl,
   by decide⟩

/-! ## The stored row (C24) -/

theorem zLevel_mem {j : Option Json} {level : String} (h : zLevel j = some level) :
    level ∈ ["critical", "high", "medium", "low", "minimal"] := by
  unfold zLevel at h
  split at h
  · split_ifs at h with hm
    simp only [Option.some.injEq] at h
    subst h
    exact hm
  · simp at h

theorem parse_level {isEmail : String → Bool} {body : Json} {v : SurveyResponse}
    (h : SurveyResponseSchema_parse isEmail body = some v) :
    v.qualificationLevel ∈ ["critical", "high", "medium", "low", "minimal"] := by
  unfold SurveyResponseSchema_parse at h
  split at h
  · split at h
    · rename_i _ _ _ h4 _ _
      simp at h
      subst h
      exact zLevel_mem h4
    · simp at h
  · simp at h

theorem submitHandler_first_call (isEmail : String → Bool) (env : Env) (body : Json)
    (v : SurveyResponse) (h : SurveyResponseSchema_parse isEmail body = some v) :
    (submitHandler isEmail env (some body)).2.head? =
      some (.surveyInsert (surveyRow (env.randomUUID 0) (env.now 0) v)) := by
  simp only [submitHandler, h]
  split
  · simp
  · split
    · simp
    · split <;> simp

/-- C24, counterexample: the body with score 9007199254740992 (two to the power 53)
and level `high` passes validation, and the row the handler inserts for it has the
`priority_score` 9007199254740996, the double nearest to the sum, not the submitted
score plus 5. -/
theorem priority_score_rounded_counterexample :
    SurveyResponseSchema_parse containsAt (bodyWithScore 9007199254740992 "high") =
      some (dataWithScore 9007199254740992 "high") ∧
    (submitHandler containsAt (mkEnv none none none none (.ok none))
        (some (bodyWithScore 9007199254740992 "high"))).2.head? =
      some (.surveyInsert (surveyRow "uuid-0" "2025-01-01T00:00:00.000Z"
        (dataWithScore 9007199254740992 "high"))) ∧
    (surveyRow "uuid-0" "2025-01-01T00:00:00.000Z"
      (dataWithScore 9007199254740992 "high")).priority_score = 9007199254740996 ∧
    (surveyRow "uuid-0" "2025-01-01T00:00:00.000Z"
      (dataWithScore 9007199254740992 "high")).priority_score ≠ 9007199254740992 + 5 := by
  decide

/-- C24, as amended: for every body that passes validation, the row the handler
inserts has as `priority_score` the double nearest to the submitted score plus 10 for
the level `critical`, plus 5 for `high` and plus 0 for `medium`, `low` and `minimal`
(the level is one of these five); for a score above minus two to the power 53 and
below two to the power 53 minus 10 that is the sum itself; and for each absent slot
q1..q5 the row has a null value, a null text and the score 0. -/
theorem surveyRow_priority_and_absent_slots (isEmail : String → Bool) (env : Env)
    (body : Json) (v : SurveyResponse)
    (h : SurveyResponseSchema_parse isEmail body = some v) :
    (submitHandler isEmail env (some body)).2.head? =
      some (.surveyInsert (surveyRow (env.randomUUID 0) (env.now 0) v)) ∧
    body.get "score" = some (.num v.score) ∧
    v.qualificationLevel ∈ ["critical", "high", "medium", "low", "minimal"] ∧
    (v.qualificationLevel = "critical" →
      (surveyRow (env.randomUUID 0) (env.now 0) v).priority_score =
        App.roundDouble (v.score + 10)) ∧
    (v.qualificationLevel = "high" →
      (surveyRow (env.randomUUID 0) (env.now 0) v).priority_score =
        App.roundDouble (v.score + 5)) ∧
    (v.qualificationLevel = "medium" ∨ v.qualificationLevel = "low" ∨
        v.qualificationLevel = "minimal" →
      (surveyRow (env.randomUUID 0) (env.now 0) v).priority_score =
        App.roundDouble (v.score + 0)) ∧
    (-9007199254740992 < v.score ∧ v.score < 9007199254740982 →
      (v.qualificationLevel = "critical" →
        (surveyRow (env.randomUUID 0) (env.now 0) v).priority_score = v.score + 10) ∧
      (v.qualificationLevel = "high" →
        (surveyRow (env.randomUUID 0) (env.now 0) v).priority_score = v.score + 5) ∧
      (v.qualificationLevel = "medium" ∨ v.qualificationLevel = "low" ∨
          v.qualificationLevel = "minimal" →
        (surveyRow (env.randomUUID 0) (env.now 0) v).priority_score = v.score)) ∧
    (v.answers.q1 = none →
      (surveyRow (env.randomUUID 0) (env.now 0) v).role_value = none ∧
      (surveyRow (env.randomUUID 0) (env.now 0) v).role_text = none ∧
      (surveyRow (env.randomUUID 0) (env.now 0) v).role_score = 0) ∧
    (v.answers.q2 = none →
      (surveyRow (env.randomUUID 0) (env.now 0) v).organization_size_value = none ∧
      (surveyRow (env.randomUUID 0) (env.now 0) v).organization_size_text = none ∧
      (surveyRow (env.randomUUID 0) (env.now 0) v).organization_size_score = 0) ∧
    (v.answers.q3 = none →
      (surveyRow (env.randomUUID 0) (env.now 0) v).primary_challenge_value = none ∧
      (surveyRow (env.randomUUID 0) (env.now 0) v).primary_challenge_text = none ∧
      (surveyRow (env.randomUUID 0) (env.now 0) v).primary_challenge_score = 0) ∧
    (v.answers.q4 = none →
      (surveyRow (env.randomUUID 0) (env.now 0) v).financial_impact_value = none ∧
      (surveyRow (env.randomUUID 0) (env.now 0) v).financial_impact_text = none ∧
      (surveyRow (env.randomUUID 0) (env.now 0) v).financial_impact_sar = none ∧
      (surveyRow (env.randomUUID 0) (env.now 0) v).financial_impact_score = 0) ∧
    (v.answers.q5 = none →
      (surveyRow (env.randomUUID 0) (env.now 0) v).ai_readiness_value = none ∧
      (surveyRow (env.randomUUID 0) (env.now 0) v).ai_readiness_text = none ∧
      (surveyRow (env.randomUUID 0) (env.now 0) v).ai_readiness_score = 0) := by
  refine ⟨submitHandler_first_call isEmail env body v h, parse_score h, parse_level h,
    ?_, ?_, ?_, ?_, ?_, ?_, ?_, ?_, ?_⟩
  · intro hl
    simp [surveyRow, priorityScore, hl]
  · intro hl
    simp [surveyRow, priorityScore, hl]
  · intro hl
    rcases hl with hl | hl | hl <;> simp [surveyRow, priorityScore, hl]
  · rintro ⟨hlo, hhi⟩
    refine ⟨?_, ?_, ?_⟩
    · intro hl
      have hr := App.roundDouble_of_small (v.score + 10) (by omega) (by omega)
      simp [surveyRow, priorityScore, hl, hr]
    · intro hl
      have hr := App.roundDouble_of_small (v.score + 5) (by omega) (by omega)
      simp [surveyRow, priorityScore, hl, hr]
    · intro hl
      have hr := App.roundDouble_of_small v.score (by omega) (by omega)
      rcases hl with hl | hl | hl <;> simp [surveyRow, priorityScore, hl, hr]
  · intro hq
    simp [surveyRow, hq, strOrNull, numOrZero]
  · intro hq
    simp [surveyRow, hq, strOrNull, numOrZero]
  · intro hq
    simp [surveyRow, hq, strOrNull, numOrZero]
  · intro hq
    simp [surveyRow, hq, strOrNull, numOrZero, numOrNull]
  · intro hq
    simp [surveyRow, hq, strOrNull, numOrZero]

/-- Witness of C24: the body with score 99 and level `critical`, q4 and q5 absent:
priority 109, null value and text and score 0 for the financial impact. -/
theorem surveyRow_priority_and_absent_slots_witness :
    (surveyRow "uuid-0" "2025-01-01T00:00:00.000Z"
      (dataWithScore 99 "critical")).priority_score = 99 + 10 ∧
    ((surveyRow "uuid-0" "2025-01-01T00:00:00.000Z"
        (dataWithScore 99 "critical")).financial_impact_value = none ∧
     (surveyRow "uuid-0" "2025-01-01T00:00:00.000Z"
        (dataWithScore 99 "critical")).financial_impact_text = none ∧
     (surveyRow "uuid-0" "2025-01-01T00:00:00.000Z"
        (dataWithScore 99 "critical")).financial_impact_sar = none ∧
     (surveyRow "uuid-0" "2025-01-01T00:00:00.000Z"
        (dataWithScore 99 "critical")).financial_impact_score = 0) :=
  ⟨((surveyRow_priority_and_absent_slots containsAt (mkEnv none none none none (.ok none))
      (bodyWithScore 99 "critical") (dataWithScore 99 "critical")
      (by decide)).2.2.2.2.2.2.1 ⟨by decide, by decide⟩).1 rfl,
   (surveyRow_priority_and_absent_slots containsAt (mkEnv none none none none (.ok none))
      (bodyWithScore 99 "critical") (dataWithScore 99 "critical")
      (by decide)).2.2.2.2.2.2.2.2.2.2.1 rfl⟩

/-! ## The client payload against the schema (C22) -/

/-- C22 (the code at the failing inputs): with a valid contact (`a@b.com` passes the
e-mail test), the body the client sends after a click on an option of step 1 whose
`data-value` is `constructor` is rejected by the schema (the function stored as
`aiScore` is left out by `JSON.stringify` and `score` is a string), and so is the body
sent after a click on an option of step 4 whose `data-sar` is `abc` (`sar` is `NaN`,
sent as `null`); the body of the five top options is accepted. -/
theorem client_payload_rejected_at_constructor :
    containsAt (App.jsTrim App.scenarioForm.email) = true ∧
    SurveyResponseSchema_parse containsAt
      (payloadJson (App.submitSurvey (submitState [(1, App.constructorBtn)] App.scenarioForm)
        "1/1/2025")) = none ∧
    (App.submitSurvey (submitState [(1, App.constructorBtn)] App.scenarioForm)
        "1/1/2025").score = .str "0function Object() \x7b [native code] \x7d" ∧
    ((submitState [(4, App.badSarBtn)] App.scenarioForm).slots 4).bind (fun a => a.sar) =
      some .nan ∧
    SurveyResponseSchema_parse containsAt
      (payloadJson (App.submitSurvey (submitState [(4, App.badSarBtn)] App.scenarioForm)
        "1/1/2025")) = none ∧
    (SurveyResponseSchema_parse containsAt
      (payloadJson (App.submitSurvey (submitState App.maxSelections App.scenarioForm)
        "1/1/2025"))).isSome = true := by
  decide

/-! ## The client payload away from the failing inputs -/

theorem zStringArray_map_str (recs : List String) :
    zStringArray (some (.arr (recs.map Json.str))) = some recs := by
  simp only [zStringArray]
  induction recs with
  | nil => rfl
  | cons r rs ih =>
    rw [List.map_cons, List.mapM_cons, ih]
    rfl

theorem zSlot_answerJson (a : App.Answer) (s : String) (w : Int) (hs : a.value = some s)
    (hw : a.aiScore = .num w) :
    zSlot (some (answerJson a)) =
      some { value := s, text := a.text, sar := none, aiScore := w } := by
  cases hq : a.qualify <;> rcases hr : a.sar with _ | (_ | _ | _ | _ | _) <;>
    simp [answerJson, jsonMember, zSlot, hs, hq, hr, hw, List.lookup, zString, zNumber]

theorem zSlotSar_answerJson (a : App.Answer) (s : String) (w : Int) (hs : a.value = some s)
    (hw : a.aiScore = .num w) (hsar : a.sar = none ∨ ∃ k : Int, a.sar = some (.num k)) :
    (zSlotSar (some (answerJson a))).isSome = true := by
  rcases hsar with hr | ⟨k, hr⟩ <;> cases hq : a.qualify <;>
    simp [answerJson, jsonMember, zSlotSar, hs, hq, hr, hw, List.lookup, zString, zNumber,
      zOptional]

theorem zOptional_zSlot_answer (o : Option App.Answer)
    (h : ∀ a, o = some a → SendableAnswer a) :
    (zOptional zSlot (o.map answerJson)).isSome = true := by
  cases o with
  | none => rfl
  | some a =>
    obtain ⟨hv, ⟨w, hw⟩, _⟩ := h a rfl
    obtain ⟨s, hs⟩ := Option.ne_none_iff_exists'.mp hv
    simp [zOptional, zSlot_answerJson a s w hs hw]

theorem zOptional_zSlotSar_answer (o : Option App.Answer)
    (h : ∀ a, o = some a → SendableAnswer a) :
    (zOptional zSlotSar (o.map answerJson)).isSome = true := by
  cases o with
  | none => rfl
  | some a =>
    obtain ⟨hv, ⟨w, hw⟩, hsar⟩ := h a rfl
    obtain ⟨s, hs⟩ := Option.ne_none_iff_exists'.mp hv
    simpa [zOptional] using zSlotSar_answerJson a s w hs hw hsar

theorem answersJson_lookup (slots : Nat → Option App.Answer) (contact : Option App.Contact) :
    ∃ members, answersJson slots contact = .obj members ∧
      members.lookup "q1" = (slots 1).map answerJson ∧
      members.lookup "q2" = (slots 2).map answerJson ∧
      members.lookup "q3" = (slots 3).map answerJson ∧
      members.lookup "q4" = (slots 4).map answerJson ∧
      members.lookup "q5" = (slots 5).map answerJson ∧
      members.lookup "contact" = contact.map clientContactJson := by
  refine ⟨_, rfl, ?_⟩
  rcases h1 : slots 1 with _ | a1 <;> rcases h2 : slots 2 with _ | a2 <;>
    rcases h3 : slots 3 with _ | a3 <;> rcases h4 : slots 4 with _ | a4 <;>
    rcases h5 : slots 5 with _ | a5 <;> rcases h6 : slots 6 with _ | a6 <;>
    rcases contact with _ | c <;>
    simp [slotMember, h1, h2, h3, h4, h5, h6, List.lookup]

theorem zContact_clientContactJson (isEmail : String → Bool) (c : App.Contact)
    (he : isEmail c.email = true) :
    zContact isEmail (some (clientContactJson c)) =
      some { name := c.name, email := c.email, organization := c.organization,
             phone := some c.phone, location := some c.location,
             jobTitle := some c.jobTitle } := by
  simp [clientContactJson, zContact, List.lookup, zString, zEmail, zOptional, he]

theorem qualificationLevel_mem (score : App.JsVal) :
    App.qualificationLevel score ∈ ["critical", "high", "medium", "low", "minimal"] := by
  unfold App.qualificationLevel
  split_ifs <;> simp

/-- The payload of `submitSurvey` passes the schema in every state whose contact is
recorded with an e-mail that passes the test, whose score is a number and whose
answers are sendable. -/
theorem parse_payloadJson (isEmail : String → Bool) (st : App.State) (timestamp : String)
    (c : App.Contact) (total : Int) (hc : st.contact = some c)
    (he : isEmail c.email = true) (hscore : st.score = .num total)
    (hv : ∀ n a, st.slots n = some a → SendableAnswer a) :
    ∃ v, SurveyResponseSchema_parse isEmail (payloadJson (App.submitSurvey st timestamp)) =
        some v ∧
      v.score = total ∧ v.qualificationLevel = App.qualificationLevel st.score ∧
      v.aiRecommendations = st.aiRecommendations ∧ v.timestamp = timestamp ∧
      v.version = "2.0" := by
  obtain ⟨members, hm, h1, h2, h3, h4, h5, h6⟩ := answersJson_lookup st.slots st.contact
  have ha : (zAnswers isEmail (some (answersJson st.slots st.contact))).isSome = true := by
    rw [hm, zAnswers_isSome, h1, h2, h3, h4, h5, h6, hc]
    simp [zOptional_zSlot_answer _ (hv 1), zOptional_zSlot_answer _ (hv 2),
      zOptional_zSlot_answer _ (hv 3), zOptional_zSlotSar_answer _ (hv 4),
      zOptional_zSlot_answer _ (hv 5), zContact_clientContactJson isEmail c he]
  obtain ⟨answers, hans⟩ := Option.isSome_iff_exists.mp ha
  have hl : zLevel (some (.str (App.qualificationLevel st.score))) =
      some (App.qualificationLevel st.score) := by
    have hmem := qualificationLevel_mem st.score
    simp only [zLevel, zString]
    rw [if_pos hmem]
  rw [hscore] at hl
  refine ⟨{ answers := answers, score := total,
            aiRecommendations := st.aiRecommendations,
            qualificationLevel := App.qualificationLevel st.score,
            timestamp := timestamp, version := "2.0" }, ?_, rfl, rfl, rfl, rfl, rfl⟩
  simp [payloadJson, jsonMember, App.submitSurvey, hscore, SurveyResponseSchema_parse,
    List.lookup, hans, zNumber, zStringArray_map_str, hl, zString, zVersion]

theorem sarOf_sendable (sar : Option String)
    (h : ∀ s, sar = some s → s = "" ∨ App.stringToNumber s ≠ none) :
    App.sarOf sar = none ∨ ∃ k : Int, App.sarOf sar = some (.num k) := by
  cases sar with
  | none => exact Or.inl rfl
  | some s =>
    rcases h s rfl with he | hn
    · exact Or.inl (by simp [App.sarOf, he])
    · by_cases he : s = ""
      · exact Or.inl (by simp [App.sarOf, he])
      · obtain ⟨k, hk⟩ := Option.ne_none_iff_exists'.mp hn
        exact Or.inr ⟨k, by simp [App.sarOf, he, hk]⟩

theorem selectAll_sendable (sels : List (Nat × App.Btn)) (st : App.State)
    (h : ∀ p ∈ sels, p.2.value ≠ none ∧
      App.objectPrototypeMember (App.propertyKey p.2.value) = none ∧
      ∀ s, p.2.sar = some s → s = "" ∨ App.stringToNumber s ≠ none)
    (hst : ∀ n a, st.slots n = some a → SendableAnswer a) :
    ∀ n a, (App.selectAll st sels).slots n = some a → SendableAnswer a := by
  induction sels generalizing st with
  | nil => simpa [App.selectAll] using hst
  | cons p ps ih =>
    obtain ⟨hp1, hp2, hp3⟩ := h p (List.mem_cons_self p ps)
    have hps := fun q hq => h q (List.mem_cons_of_mem p hq)
    have hstep : ∀ n a, (App.selectAt st p.1 p.2).slots n = some a → SendableAnswer a := by
      intro n a hn
      by_cases hnp : n = p.1
      · subst hnp
        simp [App.selectAt, App.selectOption] at hn
        subst hn
        obtain ⟨w, hw, _, _⟩ := App.aiScoreOf_of_not_inherited _ p.2.value p.2.qualify hp2
        exact ⟨hp1, ⟨w, hw⟩, sarOf_sendable _ hp3⟩
      · simp [App.selectAt, App.selectOption, Function.update_noteq hnp] at hn
        exact hst n a hn
    simpa [App.selectAll] using ih (App.selectAt st p.1 p.2) hps hstep

/-- Away from the failing inputs the client payload passes the schema: for every
sequence of selections on slots q1..q5 of options that carry a `data-value` naming no
inherited member and a `data-sar` that is absent, empty or an integer literal, and
every contact form that passes the gate of `next` with an e-mail that passes the
e-mail test, the payload of `submitSurvey` is accepted by `SurveyResponseSchema`. -/
theorem client_payload_passes_schema_of_sendable (isEmail : String → Bool)
    (sels : List (Nat × App.Btn)) (form : App.ContactForm) (timestamp : String)
    (hsels : ∀ p ∈ sels, (1 ≤ p.1 ∧ p.1 ≤ 5) ∧ p.2.value ≠ none ∧
      App.objectPrototypeMember (App.propertyKey p.2.value) = none ∧
      ∀ s, p.2.sar = some s → s = "" ∨ App.stringToNumber s ≠ none)
    (hgate : App.jsTrim form.fullName ≠ "" ∧ App.jsTrim form.email ≠ "" ∧
      App.jsTrim form.organization ≠ "")
    (hemail : isEmail (App.jsTrim form.email) = true) :
    ∃ v, SurveyResponseSchema_parse isEmail
        (payloadJson (App.submitSurvey (submitState sels form) timestamp)) = some v ∧
      App.JsVal.num v.score = (submitState sels form).score ∧
      v.qualificationLevel = App.qualificationLevel (submitState sels form).score ∧
      v.timestamp = timestamp ∧ v.version = "2.0" := by
  obtain ⟨hn, he, ho⟩ := hgate
  have hcontact : (submitState sels form).contact =
      some { name := App.jsTrim form.fullName, email := App.jsTrim form.email,
             organization := App.jsTrim form.organization,
             phone := App.jsTrim form.phone, location := App.jsTrim form.location,
             jobTitle := App.jsTrim form.jobTitle } := by
    simp [submitState, App.next, hn, he, ho]
  have hslots : (submitState sels form).slots =
      (App.selectAll App.State.initial sels).slots := by
    simp [submitState, App.next, hn, he, ho]
  have hsc : (submitState sels form).score = (App.selectAll App.State.initial sels).score := by
    simp [submitState, App.next, hn, he, ho]
  have hinv := App.ScoreInv_selectAll sels App.State.initial
    (fun p hp => ⟨(hsels p hp).1, (hsels p hp).2.2.1⟩) App.ScoreInv_initial
  have hvalues : ∀ n a, (submitState sels form).slots n = some a → SendableAnswer a := by
    rw [hslots]
    exact selectAll_sendable sels App.State.initial
      (fun p hp => ⟨(hsels p hp).2.1, (hsels p hp).2.2.1, (hsels p hp).2.2.2⟩)
      (by intro n a h; simp [App.State.initial] at h)
  obtain ⟨v, hv, h1, h2, _, h4, h5⟩ :=
    parse_payloadJson isEmail (submitState sels form) timestamp _ _ hcontact hemail
      (hsc.trans hinv.1) hvalues
  exact ⟨v, hv, by rw [h1, hsc, hinv.1], h2, h4, h5⟩

/-! ## The daily analytics cache (C21) -/

theorem runQueries_ok (env : AnalyticsEnv) (h : ∀ q, env.queryError q = none)
    (qs : List AggregateQuery) :
    runQueries env qs = (none, qs.map AnalyticsEffect.query) := by
  induction qs with
  | nil => rfl
  | cons q qs ih => simp [runQueries, h q, ih]

theorem cacheGet_cachePut (cache : List CacheEntry) (day : Nat) (value : AnalyticsSnapshot)
    (now ttl later : Nat) :
    cacheGet (cachePut cache day value now ttl) day later =
      if later < now + ttl * 1000 then some value else none := by
  simp [cacheGet, cachePut, List.find?]

/-- A request that finds a live entry under the key of the day runs no aggregate
query, writes nothing to the cache, and (the audit insert succeeding) answers 200
with exactly the cached value. -/
theorem analyticsHandler_hit (env : AnalyticsEnv) (cache : List CacheEntry)
    (data : AnalyticsSnapshot) (hget : env.cacheGetError = none)
    (hhit : cacheGet cache (env.now / 86400000) env.now = some data) :
    (analyticsHandler env cache).calls =
      [.cacheGet (env.now / 86400000),
       .auditInsert "data_access" "analytics_view" "dashboard_analytics"] ∧
    (analyticsHandler env cache).cache = cache ∧
    (env.auditInsertError = none →
      (analyticsHandler env cache).response = { status := 200, body := .snapshot data }) := by
  simp only [analyticsHandler, hget, hhit, analyticsRespond]
  cases ha : env.auditInsertError <;> simp

/-- C21 (counterexample): two requests of the same UTC day on the same record set,
the second two hours after the first, which computed and cached the snapshot: the
entry has expired, the second request runs the five queries again and its snapshot
differs from the first (another `generatedAt`). -/
theorem analytics_recomputed_after_one_hour :
    (analyticsEnvAt 7200000).now / 86400000 = (analyticsEnvAt 0).now / 86400000 ∧
    (analyticsEnvAt 7200000).aggregates = (analyticsEnvAt 0).aggregates ∧
    (analyticsHandler (analyticsEnvAt 0) []).response.status = 200 ∧
    (analyticsHandler (analyticsEnvAt 7200000)
      (analyticsHandler (analyticsEnvAt 0) []).cache).response ≠
      (analyticsHandler (analyticsEnvAt 0) []).response ∧
    (analyticsHandler (analyticsEnvAt 7200000)
      (analyticsHandler (analyticsEnvAt 0) []).cache).calls =
      [.cacheGet 0, .query .totalResponses, .query .avgScore,
       .query .qualificationDistribution, .query .challengeDistribution,
       .query .monthlyTrends,
       .cachePut 0
         { totalResponses := 3, avgScoreTenths := 153, generatedAt := 7200000,
           qualificationDistribution := ["critical: 1", "medium: 2"],
           challengeDistribution := ["nphies-compliance: 3"],
           monthlyTrends := ["2025-01: 3"] } 3600,
       .auditInsert "data_access" "analytics_view" "dashboard_analytics"] := by
  decide

/-- C21 (amended): the snapshot is cached under the key of the day for one hour.
A request that finds the live entry returns exactly the cached value and runs none of
the aggregate queries; and when a request computes and caches the snapshot, every
request of the same day made less than one hour later returns the identical snapshot
without running a query, whatever the record set has become. -/
theorem analytics_cache_one_hour (env1 env2 : AnalyticsEnv) (cache : List CacheEntry) :
    (∀ data, env2.cacheGetError = none →
      cacheGet cache (env2.now / 86400000) env2.now = some data →
      (∀ q, AnalyticsEffect.query q ∉ (analyticsHandler env2 cache).calls) ∧
      (analyticsHandler env2 cache).cache = cache ∧
      (env2.auditInsertError = none →
        (analyticsHandler env2 cache).response =
          { status := 200, body := .snapshot data })) ∧
    (cacheGet cache (env1.now / 86400000) env1.now = none →
      (env1.cacheGetError = none ∧ (∀ q, env1.queryError q = none) ∧
        env1.cachePutError = none ∧ env1.auditInsertError = none) →
      env2.now / 86400000 = env1.now / 86400000 →
      env2.now < env1.now + 3600 * 1000 →
      (env2.cacheGetError = none ∧ env2.auditInsertError = none) →
      (analyticsHandler env1 cache).response.status = 200 ∧
      (analyticsHandler env2 (analyticsHandler env1 cache).cache).response =
        (analyticsHandler env1 cache).response ∧
      (∀ q, AnalyticsEffect.query q ∉
        (analyticsHandler env2 (analyticsHandler env1 cache).cache).calls)) := by
  constructor
  · intro data hget hhit
    obtain ⟨hcalls, hcache, hresp⟩ := analyticsHandler_hit env2 cache data hget hhit
    refine ⟨?_, hcache, hresp⟩
    intro q
    rw [hcalls]
    simp
  · intro hmiss hok1 hday hsoon hok2
    obtain ⟨hg1, hq1, hp1, ha1⟩ := hok1
    obtain ⟨hg2, ha2⟩ := hok2
    have h1 : analyticsHandler env1 cache =
        analyticsRespond env1
          { totalResponses := env1.aggregates.totalResponses
            avgScoreTenths := env1.aggregates.avgScoreTenths
            generatedAt := env1.now
            qualificationDistribution := env1.aggregates.qualificationDistribution
            challengeDistribution := env1.aggregates.challengeDistribution
            monthlyTrends := env1.aggregates.monthlyTrends }
          (.cacheGet (env1.now / 86400000) ::
            [AggregateQuery.totalResponses, .avgScore, .qualificationDistribution,
              .challengeDistribution, .monthlyTrends].map AnalyticsEffect.query ++
            [.cachePut (env1.now / 86400000)
              { totalResponses := env1.aggregates.totalResponses
                avgScoreTenths := env1.aggregates.avgScoreTenths
                generatedAt := env1.now
                qualificationDistribution := env1.aggregates.qualificationDistribution
                challengeDistribution := env1.aggregates.challengeDistribution
                monthlyTrends := env1.aggregates.monthlyTrends } 3600])
          (cachePut cache (env1.now / 86400000)
            { totalResponses := env1.aggregates.totalResponses
              avgScoreTenths := env1.aggregates.avgScoreTenths
              generatedAt := env1.now
              qualificationDistribution := env1.aggregates.qualificationDistribution
              challengeDistribution := env1.aggregates.challengeDistribution
              monthlyTrends := env1.aggregates.monthlyTrends } env1.now 3600) := by
      simp only [analyticsHandler, hg1, hmiss, runQueries_ok env1 hq1, hp1]
    have hhit : cacheGet (analyticsHandler env1 cache).cache (env2.now / 86400000) env2.now =
        some { totalResponses := env1.aggregates.totalResponses
               avgScoreTenths := env1.aggregates.avgScoreTenths
               generatedAt := env1.now
               qualificationDistribution := env1.aggregates.qualificationDistribution
               challengeDistribution := env1.aggregates.challengeDistribution
               monthlyTrends := env1.aggregates.monthlyTrends } := by
      rw [h1, hday]
      simp only [analyticsRespond, ha1, cacheGet_cachePut]
      rw [if_pos hsoon]
    obtain ⟨hcalls, _, hresp⟩ := analyticsHandler_hit env2 _ _ hg2 hhit
    have hr1 : (analyticsHandler env1 cache).response =
        { status := 200
          body := .snapshot
            { totalResponses := env1.aggregates.totalResponses
              avgScoreTenths := env1.aggregates.avgScoreTenths
              generatedAt := env1.now
              qualificationDistribution := env1.aggregates.qualificationDistribution
              challengeDistribution := env1.aggregates.challengeDistribution
              monthlyTrends := env1.aggregates.monthlyTrends } } := by
      rw [h1]
      simp only [analyticsRespond, ha1]
    refine ⟨by rw [hr1], by rw [hresp ha2, hr1], ?_⟩
    intro q
    rw [hcalls]
    simp

/-- Witness of C21 (amended): a request half an hour after the one that computed the
snapshot gets the identical response and runs no query. -/
theorem analytics_cache_one_hour_witness :
    (analyticsHandler (analyticsEnvAt 1800000)
      (analyticsHandler (analyticsEnvAt 0) []).cache).response =
      (analyticsHandler (analyticsEnvAt 0) []).response ∧
    (∀ q, AnalyticsEffect.query q ∉
      (analyticsHandler (analyticsEnvAt 1800000)
        (analyticsHandler (analyticsEnvAt 0) []).cache).calls) :=
  ⟨((analytics_cache_one_hour (analyticsEnvAt 0) (analyticsEnvAt 1800000) []).2
      rfl ⟨rfl, fun _ => rfl, rfl, rfl⟩ (by decide) (by decide) ⟨rfl, rfl⟩).2.1,
   ((analytics_cache_one_hour (analyticsEnvAt 0) (analyticsEnvAt 1800000) []).2
      rfl ⟨rfl, fun _ => rfl, rfl, rfl⟩ (by decide) (by decide) ⟨rfl, rfl⟩).2.2⟩

end Worker

end RcmValidation
